import Mathlib

/-!
Shallow embedding of the `epicwebhook` Cloudflare Worker repository.

The repository contains several variants of the same worker:
 - `src/index.ts` (first document): the main handler, with HMAC-SHA256
   signature verification (`calcSignature`, `verifyHeadersAndSignature`,
   `requireField`) — embedded below as `mainFetch`.
 - `unnamed/part_000`: the header-echo variant — embedded as `part000Fetch`.
 - `unnamed/part_001` (first document): the challenge-echo variant —
   embedded as `part001aFetch`.
 - `unnamed/part_002`: the "final version" variant with
   `malformedSignature` and the 428 case — embedded as `part002Fetch`.

JavaScript values appearing in JSON bodies are modelled by `JValue`;
`undefined` (an absent property) is modelled by `Option JValue = none`.
JSON numbers are carried as their source lexeme (floating point is not
modelled; the handlers only ever test numbers for emptiness/truthiness
and compare them against non-numeric strings, so the lexeme is
observationally adequate).  Platform built-ins (`Date.now`,
`Date.parse`, `new Date().toISOString()`) are passed in explicitly as a
`JsEnv` parameter.

Handlers return a `FetchOutcome`: either a constructed `HResponse`, or
`thrown` when the code raises an uncaught exception.  In particular the
`Response` constructor of the Workers runtime throws a `TypeError` when
given a non-null body together with a null body status (101/204/205/304,
Fetch spec), which the main handler and `part_000` hit on their OPTIONS
routes (`json(null, 204)` passes the body `JSON.stringify(null)`).
-/

/-- Model of a parsed JSON / JavaScript value. -/
inductive JValue where
  | jnull
  | jbool (b : Bool)
  | jnum (lexeme : String)
  | jstr (s : String)
  | jarr (elems : List JValue)
  | jobj (fields : List (String × JValue))
deriving Repr

/-- Last-wins association lookup on object fields (JSON.parse keeps the
last duplicate key, so lookup scans the reversed field list). -/
def lookupField : List (String × JValue) → String → Option JValue
  | [], _ => none
  | (k2, v) :: rest, k => if k2 = k then some v else lookupField rest k

/-- Property access `obj[k]` / `obj?.k`: `none` models `undefined`.
Non-objects (including `null`, for the `?.` form) have no own fields. -/
def getField : JValue → String → Option JValue
  | .jobj fields, k => lookupField fields.reverse k
  | _, _ => none

/-- JavaScript `x ?? null` on a possibly-absent property: `undefined` and
`null` both collapse to `null`. -/
def nnull : Option JValue → JValue
  | some v => v
  | none => .jnull

/-- JavaScript `x ?? y`-style skipping of nullish values: `some jnull`
behaves like `none`. -/
def nnOpt : Option JValue → Option JValue
  | some .jnull => none
  | o => o

/-- Whether a numeric lexeme denotes zero (all mantissa digits are 0). -/
def numIsZero (lex : String) : Bool :=
  (lex.toList.takeWhile (fun c => ¬ (c = 'e' ∨ c = 'E'))).all
    (fun c => ¬ c.isDigit ∨ c = '0')

/-- JavaScript truthiness of a value. -/
def jsTruthy : JValue → Bool
  | .jnull => false
  | .jbool b => b
  | .jnum lex => ¬ numIsZero lex
  | .jstr s => s ≠ ""
  | .jarr _ => true
  | .jobj _ => true

/-- Truthiness of a possibly-absent property (`undefined` is falsy). -/
def optTruthy : Option JValue → Bool
  | none => false
  | some v => jsTruthy v

mutual

/-- JavaScript `String(v)` / template-literal conversion.  Numbers are
shown as their source lexeme (see module comment). -/
def jsString : JValue → String
  | .jnull => "null"
  | .jbool true => "true"
  | .jbool false => "false"
  | .jnum lex => lex
  | .jstr s => s
  | .jarr xs => String.intercalate "," (jsStringList xs)
  | .jobj _ => "[object Object]"

/-- Array elements under `Array.prototype.toString`: `null` shows as "". -/
def jsStringList : List JValue → List String
  | [] => []
  | .jnull :: vs => "" :: jsStringList vs
  | v :: vs => jsString v :: jsStringList vs
end

/-! ## JSON parser (model of `JSON.parse`) -/

/-- Skip JSON whitespace. -/
def skipWs : List Char → List Char
  | [] => []
  | c :: cs =>
    if c = ' ' ∨ c = '\t' ∨ c = '\n' ∨ c = '\r' then skipWs cs else c :: cs

/-- Hex digit value. -/
def hexVal (c : Char) : Option Nat :=
  if '0' ≤ c ∧ c ≤ '9' then some (c.toNat - 48)
  else if 'a' ≤ c ∧ c ≤ 'f' then some (c.toNat - 87)
  else if 'A' ≤ c ∧ c ≤ 'F' then some (c.toNat - 55)
  else none

/-- Parse the remainder of a JSON string after the opening quote,
returning the decoded characters and the input after the closing quote. -/
def parseJStringAux : List Char → Option (List Char × List Char)
  | '"' :: rest => some ([], rest)
  | '\\' :: 'u' :: a :: b :: c :: d :: rest =>
    match hexVal a, hexVal b, hexVal c, hexVal d with
    | some x, some y, some z, some w =>
      (parseJStringAux rest).map
        (fun p => (Char.ofNat (((x * 16 + y) * 16 + z) * 16 + w) :: p.1, p.2))
    | _, _, _, _ => none
  | '\\' :: e :: rest =>
    let esc : Option Char :=
      if e = '"' then some '"'
      else if e = '\\' then some '\\'
      else if e = '/' then some '/'
      else if e = 'b' then some (Char.ofNat 8)
      else if e = 'f' then some (Char.ofNat 12)
      else if e = 'n' then some '\n'
      else if e = 'r' then some '\r'
      else if e = 't' then some '\t'
      else none
    match esc with
    | some c => (parseJStringAux rest).map (fun p => (c :: p.1, p.2))
    | none => none
  | c :: rest =>
    if c = '"' ∨ c = '\\' then none
    else (parseJStringAux rest).map (fun p => (c :: p.1, p.2))
  | [] => none

/-- Parse a JSON number, returning its lexeme. -/
def parseNum (cs : List Char) : Option (JValue × List Char) :=
  let sr : List Char × List Char :=
    match cs with
    | '-' :: r => (['-'], r)
    | _ => ([], cs)
  let sgn := sr.1
  let ip : Option (List Char × List Char) :=
    match sr.2 with
    | '0' :: r => if (r.headD ' ').isDigit then none else some (['0'], r)
    | c :: r =>
      if c.isDigit then
        some ((c :: r).takeWhile Char.isDigit, (c :: r).dropWhile Char.isDigit)
      else none
    | [] => none
  match ip with
  | none => none
  | some (ipart, cs2) =>
    let fr : List Char × List Char :=
      match cs2 with
      | '.' :: r =>
        if (r.headD ' ').isDigit then
          ('.' :: r.takeWhile Char.isDigit, r.dropWhile Char.isDigit)
        else ([], cs2)
      | _ => ([], cs2)
    let er : List Char × List Char :=
      match fr.2 with
      | 'e' :: '+' :: r =>
        if (r.headD ' ').isDigit then
          ('e' :: '+' :: r.takeWhile Char.isDigit, r.dropWhile Char.isDigit)
        else ([], fr.2)
      | 'e' :: '-' :: r =>
        if (r.headD ' ').isDigit then
          ('e' :: '-' :: r.takeWhile Char.isDigit, r.dropWhile Char.isDigit)
        else ([], fr.2)
      | 'e' :: r =>
        if (r.headD ' ').isDigit then
          ('e' :: r.takeWhile Char.isDigit, r.dropWhile Char.isDigit)
        else ([], fr.2)
      | 'E' :: r =>
        if (r.headD ' ').isDigit then
          ('E' :: r.takeWhile Char.isDigit, r.dropWhile Char.isDigit)
        else ([], fr.2)
      | _ => ([], fr.2)
    some (.jnum (String.mk (sgn ++ ipart ++ fr.1 ++ er.1)), er.2)

mutual

/-- Parse a JSON value ; the fuel bounds nesting and element count. -/
def parseVal : Nat → List Char → Option (JValue × List Char)
  | 0, _ => none
  | fuel + 1, cs =>
    match skipWs cs with
    | 'n' :: 'u' :: 'l' :: 'l' :: rest => some (.jnull, rest)
    | 't' :: 'r' :: 'u' :: 'e' :: rest => some (.jbool true, rest)
    | 'f' :: 'a' :: 'l' :: 's' :: 'e' :: rest => some (.jbool false, rest)
    | '"' :: rest => (parseJStringAux rest).map (fun p => (.jstr (String.mk p.1), p.2))
    | '[' :: rest =>
      (match skipWs rest with
       | ']' :: r2 => some (.jarr [], r2)
       | cs2 => (parseElems fuel cs2).map (fun p => (.jarr p.1, p.2)))
    | '{' :: rest =>
      (match skipWs rest with
       | '}' :: r2 => some (.jobj [], r2)
       | cs2 => (parseFields fuel cs2).map (fun p => (.jobj p.1, p.2)))
    | cs2 => parseNum cs2

/-- Parse the elements of a non-empty JSON array up to `]`. -/
def parseElems : Nat → List Char → Option (List JValue × List Char)
  | 0, _ => none
  | fuel + 1, cs =>
    match parseVal fuel cs with
    | none => none
    | some (v, rest) =>
      match skipWs rest with
      | ',' :: r2 => (parseElems fuel r2).map (fun p => (v :: p.1, p.2))
      | ']' :: r2 => some ([v], r2)
      | _ => none

/-- Parse the fields of a non-empty JSON object up to the closing brace. -/
def parseFields : Nat → List Char → Option (List (String × JValue) × List Char)
  | 0, _ => none
  | fuel + 1, cs =>
    match skipWs cs with
    | '"' :: rest =>
      (match parseJStringAux rest with
       | none => none
       | some (kcs, r2) =>
         match skipWs r2 with
         | ':' :: r3 =>
           (match parseVal fuel r3 with
            | none => none
            | some (v, r4) =>
              match skipWs r4 with
              | ',' :: r5 => (parseFields fuel r5).map (fun p => ((String.mk kcs, v) :: p.1, p.2))
              | '}' :: r5 => some ([(String.mk kcs, v)], r5)
              | _ => none)
         | _ => none)
    | _ => none
end

/-- Model of `JSON.parse`: `none` models the thrown `SyntaxError`. -/
def jparse (s : String) : Option JValue :=
  match parseVal (s.length + 1) s.data with
  | some (v, rest) =>
    match skipWs rest with
    | [] => some v
    | _ => none
  | none => none

/-! ## HTTP request / response model -/

/-- Response body: either a `JSON.stringify`-ed value, raw text, or
absent (`new Response(null, ...)`). -/
inductive BodyVal where
  | jsonBody (v : JValue)
  | textBody (s : String)
deriving Repr

/-- Incoming HTTP request (method, pathname, search params, headers, raw
body text). -/
structure HRequest where
  method : String
  path : String
  query : List (String × String)
  headers : List (String × String)
  body : String

/-- Outgoing HTTP response. -/
structure HResponse where
  status : Nat
  headers : List (String × String)
  body : Option BodyVal

/-- Null body statuses of the Fetch specification: constructing a
`Response` with one of these statuses and a non-null body throws a
`TypeError` in the Workers runtime. -/
def nullBodyStatus (s : Nat) : Bool := s = 101 ∨ s = 204 ∨ s = 205 ∨ s = 304

/-- Message of the `TypeError` thrown by the `Response` constructor on
a null-body status with a body. -/
def nullBodyMsg : String := "TypeError: Response with null body status cannot have body"

/-- Outcome of a fetch handler: either a constructed response, or an
uncaught exception propagating out of the handler (the worker throws
and produces no response). -/
inductive FetchOutcome where
  | response (r : HResponse)
  | thrown (msg : String)

/-- Status observation of an outcome.  A thrown outcome yields 0, which
is not an HTTP status, so asserting a genuine status of an outcome also
asserts that a response was produced. -/
def FetchOutcome.status : FetchOutcome → Nat
  | .response r => r.status
  | .thrown _ => 0

/-- Header observation of an outcome (a thrown outcome has none). -/
def FetchOutcome.headers : FetchOutcome → List (String × String)
  | .response r => r.headers
  | .thrown _ => []

/-- Body observation of an outcome (a thrown outcome has none). -/
def FetchOutcome.body : FetchOutcome → Option BodyVal
  | .response r => r.body
  | .thrown _ => none

/-- ASCII lowercasing, character by character. -/
def lowerAscii (s : String) : String := String.mk (s.data.map Char.toLower)

/-- ASCII uppercasing (`String.prototype.toUpperCase` on ASCII). -/
def upperAscii (s : String) : String := String.mk (s.data.map Char.toUpper)

/-- Whitespace trimmed by `String.prototype.trim` (ASCII subset; the
exotic Unicode space characters are not modelled). -/
def jsWs (c : Char) : Bool :=
  c = ' ' ∨ c = '\t' ∨ c = '\n' ∨ c = '\r' ∨ c = Char.ofNat 11 ∨ c = Char.ofNat 12

/-- Model of `String.prototype.trim`. -/
def jsTrim (s : String) : String :=
  String.mk (((s.data.dropWhile jsWs).reverse.dropWhile jsWs).reverse)

/-- Split a character list at every occurrence of `sep`, keeping empty
pieces (`String.prototype.split` with a single-character separator). -/
def splitCharAux (sep : Char) : List Char → List Char → List (List Char)
  | [], acc => [acc.reverse]
  | c :: cs, acc =>
    if c = sep then acc.reverse :: splitCharAux sep cs []
    else splitCharAux sep cs (c :: acc)

/-- Model of `s.split(sep)` for a one-character separator. -/
def jsSplit (sep : Char) (s : String) : List String :=
  (splitCharAux sep s.data []).map String.mk

/-- Case-insensitive header lookup (`Headers.get`; `null` is `none`). -/
def headerGet (hs : List (String × String)) (name : String) : Option String :=
  (hs.find? (fun p => lowerAscii p.fst = lowerAscii name)).map Prod.snd

/-- Whether a header is present (`Headers.has`). -/
def headerHas (hs : List (String × String)) (name : String) : Bool :=
  (headerGet hs name).isSome

/-- Case-sensitive search-param lookup (`URLSearchParams.get`). -/
def queryGet (qs : List (String × String)) (name : String) : Option String :=
  (qs.find? (fun p => p.fst = name)).map Prod.snd

/-- JavaScript `headers.get(h) || undefined`: empty values collapse to
`undefined`. -/
def nonEmptyOpt : Option String → Option String
  | some s => if s = "" then none else some s
  | none => none

/-! ## SHA-256 and HMAC-SHA256 (model of `crypto.subtle` HMAC signing)

Bytes are natural numbers below 256, 32-bit words natural numbers below
2^32; overflow is made explicit with `% 4294967296`. -/

/-- Truncate to a 32-bit word. -/
def w32 (n : Nat) : Nat := n % 4294967296

/-- Rotate a 32-bit word right by `n` bits. -/
def rotr32 (n x : Nat) : Nat := w32 ((x >>> n) ||| (x <<< (32 - n)))

/-- Big sigma 0. -/
def bigSigma0 (x : Nat) : Nat := rotr32 2 x ^^^ rotr32 13 x ^^^ rotr32 22 x

/-- Big sigma 1. -/
def bigSigma1 (x : Nat) : Nat := rotr32 6 x ^^^ rotr32 11 x ^^^ rotr32 25 x

/-- Small sigma 0. -/
def smallSigma0 (x : Nat) : Nat := rotr32 7 x ^^^ rotr32 18 x ^^^ (x >>> 3)

/-- Small sigma 1. -/
def smallSigma1 (x : Nat) : Nat := rotr32 17 x ^^^ rotr32 19 x ^^^ (x >>> 10)

/-- Choice function. -/
def chf (x y z : Nat) : Nat := (x &&& y) ^^^ ((x ^^^ 4294967295) &&& z)

/-- Majority function. -/
def majf (x y z : Nat) : Nat := (x &&& y) ^^^ (x &&& z) ^^^ (y &&& z)

/-- SHA-256 round constants. -/
def sha256K : List Nat :=
  [1116352408, 1899447441, 3049323471, 3921009573, 961987163,
   1508970993, 2453635748, 2870763221, 3624381080, 310598401,
   607225278, 1426881987, 1925078388, 2162078206, 2614888103,
   3248222580, 3835390401, 4022224774, 264347078, 604807628,
   770255983, 1249150122, 1555081692, 1996064986, 2554220882,
   2821834349, 2952996808, 3210313671, 3336571891, 3584528711,
   113926993, 338241895, 666307205, 773529912, 1294757372,
   1396182291, 1695183700, 1986661051, 2177026350, 2456956037,
   2730485921, 2820302411, 3259730800, 3345764771, 3516065817,
   3600352804, 4094571909, 275423344, 430227734, 506948616,
   659060556, 883997877, 958139571, 1322822218, 1537002063,
   1747873779, 1955562222, 2024104815, 2227730452, 2361852424,
   2428436474, 2756734187, 3204031479, 3329325298]

/-- SHA-256 initial hash state. -/
def sha256H0 : List Nat :=
  [1779033703, 3144134277, 1013904242, 2773480762,
   1359893119, 2600822924, 528734635, 1541459225]

/-- Big-endian 8-byte encoding. -/
def be64 (n : Nat) : List Nat :=
  [(n >>> 56) &&& 255, (n >>> 48) &&& 255, (n >>> 40) &&& 255, (n >>> 32) &&& 255,
   (n >>> 24) &&& 255, (n >>> 16) &&& 255, (n >>> 8) &&& 255, n &&& 255]

/-- SHA-256 message padding: append 0x80, zeros, and the 64-bit bit length. -/
def sha256Pad (msg : List Nat) : List Nat :=
  let padZeros := (55 + 64 - msg.length % 64) % 64
  msg ++ [0x80] ++ List.replicate padZeros 0 ++ be64 (msg.length * 8)

/-- Combine bytes into big-endian 32-bit words. -/
def toWords : List Nat → List Nat
  | a :: b :: c :: d :: rest => ((a <<< 24) ||| (b <<< 16) ||| (c <<< 8) ||| d) :: toWords rest
  | _ => []

/-- Split a byte list into 64-byte blocks (fuel-bounded). -/
def chunks64Aux : Nat → List Nat → List (List Nat)
  | 0, _ => []
  | _, [] => []
  | fuel + 1, l => l.take 64 :: chunks64Aux fuel (l.drop 64)

/-- Split a byte list into 64-byte blocks. -/
def chunks64 (l : List Nat) : List (List Nat) := chunks64Aux l.length l

/-- Extend the 16 message-schedule words to 64. -/
def sha256Schedule (w16 : List Nat) : List Nat := Id.run do
  let mut w := w16.toArray
  for i in [16:64] do
    let v := w32 (smallSigma1 (w.getD (i - 2) 0) + w.getD (i - 7) 0 +
                  smallSigma0 (w.getD (i - 15) 0) + w.getD (i - 16) 0)
    w := w.push v
  return w.toList

/-- One SHA-256 compression step over a 64-byte block. -/
def sha256Compress (hs : List Nat) (block : List Nat) : List Nat :=
  let ws := sha256Schedule (toWords block)
  let st0 := (hs.getD 0 0, hs.getD 1 0, hs.getD 2 0, hs.getD 3 0,
              hs.getD 4 0, hs.getD 5 0, hs.getD 6 0, hs.getD 7 0)
  let stf := (List.zip sha256K ws).foldl
    (fun st kw =>
      match st, kw with
      | (a, b, c, d, e, f, g, h), (k, wt) =>
        let t1 := w32 (h + bigSigma1 e + chf e f g + k + wt)
        let t2 := w32 (bigSigma0 a + majf a b c)
        (w32 (t1 + t2), a, b, c, w32 (d + t1), e, f, g))
    st0
  match stf with
  | (a, b, c, d, e, f, g, h) =>
    [w32 (hs.getD 0 0 + a), w32 (hs.getD 1 0 + b), w32 (hs.getD 2 0 + c),
     w32 (hs.getD 3 0 + d), w32 (hs.getD 4 0 + e), w32 (hs.getD 5 0 + f),
     w32 (hs.getD 6 0 + g), w32 (hs.getD 7 0 + h)]

/-- SHA-256 over a byte list, producing the 32 digest bytes. -/
def sha256 (msg : List Nat) : List Nat :=
  let hs := (chunks64 (sha256Pad msg)).foldl sha256Compress sha256H0
  hs.foldr
    (fun w acc => ((w >>> 24) &&& 255) :: ((w >>> 16) &&& 255) ::
                  ((w >>> 8) &&& 255) :: (w &&& 255) :: acc) []

/-- HMAC-SHA256 over byte lists. -/
def hmacSha256 (key msg : List Nat) : List Nat :=
  let k1 := if key.length > 64 then sha256 key else key
  let k2 := k1 ++ List.replicate (64 - k1.length) 0
  let ipadded := k2.map (fun b => b ^^^ 0x36)
  let opadded := k2.map (fun b => b ^^^ 0x5c)
  sha256 (opadded ++ sha256 (ipadded ++ msg))

/-- UTF-8 bytes of a string (`TextEncoder.encode`). -/
def utf8Bytes (s : String) : List Nat := s.toUTF8.toList.map UInt8.toNat

/-- Lowercase hexadecimal digits. -/
def hexDigits : List Char := "0123456789abcdef".toList

/-- One lowercase hex digit. -/
def hexDigit (n : Nat) : Char := hexDigits.getD n '0'

/-- Two-digit lowercase hex encoding of a byte
(`b.toString(16).padStart(2, "0")`). -/
def hexByte (b : Nat) : String := String.mk [hexDigit (b / 16 % 16), hexDigit (b % 16)]

/-- Lowercase hex encoding of a byte list. -/
def bytesToHex (bs : List Nat) : String := String.join (bs.map hexByte)

/-! ## Main handler (`src/index.ts`, first document) -/

/-- Platform built-ins used by the handlers: `Date.now()` (ms since
epoch), `new Date().toISOString()`, and `Date.parse` (`none` models
`NaN`). -/
structure JsEnv where
  now : Int
  nowIso : String
  dateParse : String → Option Int

/-- Worker bindings (`env.WEBHOOK_SECRET`). -/
structure WorkerEnv where
  WEBHOOK_SECRET : Option String

/-- Unified JSON response of the main handler: CORS headers, an
`X-Timestamp` header, and an optional echoed correlation id.  All call
sites pass empty `extraHeaders`, faithfully to the source.  The body is
always `JSON.stringify(data)`, a non-null body, so the `Response`
constructor throws on a null-body status. -/
def mainJson (env : JsEnv) (data : JValue) (status : Nat)
    (extraHeaders : List (String × String)) (correlationId : Option String) :
    FetchOutcome :=
  if nullBodyStatus status then .thrown nullBodyMsg
  else
    .response
      { status := status
        headers :=
          [("content-type", "application/json; charset=utf-8"),
           ("cache-control", "no-store"),
           ("access-control-allow-origin", "*"),
           ("access-control-allow-headers", "*"),
           ("access-control-allow-methods", "GET,POST,OPTIONS"),
           ("X-Timestamp", env.nowIso)] ++
          (match correlationId with
           | some c => [("X-Epic-Correlation-ID", c)]
           | none => []) ++ extraHeaders
        body := some (.jsonBody data) }

/-- OPTIONS handler of the main variant: `json(null, 204)` passes the
body `JSON.stringify(null)` (the text `null`) to a 204 response, a
null-body status, so the `Response` constructor throws a `TypeError`
and the handler produces no response. -/
def mainHandleOptions (env : JsEnv) : FetchOutcome := mainJson env .jnull 204 [] none

/-- Signature string: `S8137=` + hex(hmacSha256(body, secret)). -/
def calcSignature (bodyText secret : String) : String :=
  "S8137=" ++ bytesToHex (hmacSha256 (utf8Bytes secret) (utf8Bytes bodyText))

/-- Clock-skew check: `Math.abs(Date.now() - Date.parse(ts)) <= skewMs`,
false when the timestamp does not parse. -/
def withinTimeSkew (env : JsEnv) (tsIso : String) (skewMs : Nat := 600000) : Bool :=
  match env.dateParse tsIso with
  | none => false
  | some t => (env.now - t).natAbs ≤ skewMs

/-- Result record of `verifyHeadersAndSignature`. -/
structure VerifyResult where
  ok : Bool
  code : Nat
  msg : String

/-- Timestamp and signature validation of the main handler. -/
def verifyHeadersAndSignature (env : JsEnv) (req : HRequest) (bodyText : String)
    (wenv : WorkerEnv) : VerifyResult :=
  let ts := (headerGet req.headers "X-Timestamp").getD ""
  if ts = "" ∨ ¬ withinTimeSkew env ts then
    ⟨false, 400, "Missing or invalid X-Timestamp"⟩
  else
    let sig := (headerGet req.headers "X-Signature").getD ""
    if sig = "" then ⟨false, 401, "Invalid or missing X-Signature"⟩
    else if wenv.WEBHOOK_SECRET.getD "" = "" then
      ⟨false, 500, "Server misconfigured: missing WEBHOOK_SECRET"⟩
    else
      let expect := calcSignature bodyText (wenv.WEBHOOK_SECRET.getD "")
      if sig ≠ expect then ⟨false, 401, "Invalid or missing X-Signature"⟩
      else ⟨true, 200, "ok"⟩

/-- Required-field check of the main handler; errors model the thrown
`{code, msg}` objects.  Property access on a `null` payload raises a
`TypeError`, which the handler's catch-all surfaces as 400 Bad Request. -/
def requireField (payload : JValue) (key : String) : Except (Nat × String) Unit :=
  match payload with
  | .jnull => .error (400, "Bad Request")
  | _ =>
    match getField payload key with
    | none => .error (400, "Missing " ++ key)
    | some .jnull => .error (400, "Missing " ++ key)
    | some (.jstr s) =>
      if jsTrim s = "" then .error (400, "Missing " ++ key) else .ok ()
    | some _ => .ok ()

/-- Success payload with echoed `namespace`/`productId`. -/
def successBody (payload : JValue) : JValue :=
  .jobj [("ok", .jbool true),
         ("message", .jstr "Webhook verified successfully"),
         ("namespace", nnull (getField payload "namespace")),
         ("productId", nnull (getField payload "productId"))]

/-- Field validation and business branch of the main handler (the `try`
block after signature verification). -/
def fieldValidation (payload : JValue) : Except (Nat × String) JValue := do
  requireField payload "eventType"
  match getField payload "eventType" with
  | some (.jstr s) =>
    if s = "event-v1-acknowledge" then do
      requireField payload "eventId"
      return successBody payload
    else if s = "event-v1-player-id-verification" then do
      requireField payload "eventId"
      requireField payload "playerId"
      return successBody payload
    else if s = "event-v1-fulfill" ∨ s = "event-v1-clawback" then do
      requireField payload "eventId"
      requireField payload "playerId"
      requireField payload "offerId"
      requireField payload "namespace"
      requireField payload "quantity"
      return successBody payload
    else .error (400, "Unsupported eventType: " ++ s)
  | some v => .error (400, "Unsupported eventType: " ++ jsString v)
  | none => .error (400, "Unsupported eventType: undefined")

/-- Body parse of the main handler: an empty body is replaced by `{}`
without parsing (`bodyText ? JSON.parse(bodyText) : {}`). -/
def parsedBody (bodyText : String) : Option JValue :=
  if bodyText = "" then some (.jobj []) else jparse bodyText

/-- Shorthand response payload `{ok, message}`. -/
def msgBody (ok : Bool) (msg : String) : JValue :=
  .jobj [("ok", .jbool ok), ("message", .jstr msg)]

/-- The main handler's `fetch` (`src/index.ts`, first document).  An
OPTIONS request makes the handler throw (see `mainHandleOptions`);
every other route constructs a legal response. -/
def mainFetch (env : JsEnv) (wenv : WorkerEnv) (req : HRequest) : FetchOutcome :=
  let method := upperAscii req.method
  if method = "OPTIONS" then mainHandleOptions env
  else
    let correlationId := nonEmptyOpt (headerGet req.headers "X-Epic-Correlation-ID")
    if req.path = "/" then
      mainJson env (msgBody true "Hello from Daicy Cloudflare Worker!") 200 [] correlationId
    else if req.path = "/verify" ∧ method = "POST" then
      match parsedBody req.body with
      | none => mainJson env (msgBody false "Invalid JSON") 400 [] correlationId
      | some payload =>
        let sigRes := verifyHeadersAndSignature env req req.body wenv
        if sigRes.ok then
          match fieldValidation payload with
          | .ok data => mainJson env data 200 [] correlationId
          | .error e => mainJson env (msgBody false e.2) e.1 [] correlationId
        else mainJson env (msgBody false sigRes.msg) sigRes.code [] correlationId
    else mainJson env (msgBody false "Not Found") 404 [] correlationId

/-! ## Variant `unnamed/part_000` (header-echo variant) -/

/-- JSON response of `part_000`: echoes the request's `x-timestamp` and
`x-epic-correlation-id` when present and non-empty.  The body is always
`JSON.stringify(data)`, so the `Response` constructor throws on a
null-body status (its OPTIONS call passes 204). -/
def part000Json (data : JValue) (status : Nat) (reqHeaders : List (String × String)) :
    FetchOutcome :=
  let ts := (headerGet reqHeaders "x-timestamp").getD ""
  let corr := (headerGet reqHeaders "x-epic-correlation-id").getD ""
  if nullBodyStatus status then .thrown nullBodyMsg
  else
    .response
      { status := status
        headers :=
          [("content-type", "application/json; charset=utf-8"),
           ("cache-control", "no-store"),
           ("access-control-allow-origin", "*"),
           ("access-control-allow-headers", "*"),
           ("access-control-allow-methods", "GET,POST,OPTIONS")] ++
          (if ts ≠ "" then [("x-timestamp", ts)] else []) ++
          (if corr ≠ "" then [("x-epic-correlation-id", corr)] else [])
        body := some (.jsonBody data) }

/-- The `fetch` of `unnamed/part_000`.  Note that it checks the
signature before the timestamp and before `eventId`, that
`request.json()` rejects an empty body, and that its OPTIONS branch
throws (`json(null, 204, ...)` is a body on a null-body status). -/
def part000Fetch (req : HRequest) : FetchOutcome :=
  if req.method = "OPTIONS" then part000Json .jnull 204 req.headers
  else if req.path = "/verify" then
    if req.method ≠ "POST" then
      part000Json (msgBody false "Method not allowed") 405 req.headers
    else
      let signature := (headerGet req.headers "x-signature").getD ""
      let timestamp := (headerGet req.headers "x-timestamp").getD ""
      match jparse req.body with
      | none => part000Json (msgBody false "Invalid JSON") 400 req.headers
      | some body =>
        let eventId : JValue :=
          match nnOpt (getField body "eventId") with
          | none => .jstr ""
          | some v => v
        if signature = "" then
          part000Json (msgBody false "Invalid or missing X-Signature") 401 req.headers
        else if timestamp = "" then
          part000Json (msgBody false "Missing X-Timestamp") 400 req.headers
        else if ¬ jsTruthy eventId then
          part000Json (msgBody false "Missing eventId") 400 req.headers
        else
          match getField body "eventType" with
          | some (.jstr "event-v1-acknowledge") =>
            part000Json
              (.jobj [("ok", .jbool true),
                      ("message", .jstr "Webhook verified successfully"),
                      ("namespace", nnull (getField body "namespace")),
                      ("productId", nnull (getField body "productId"))])
              200 req.headers
          | some (.jstr "event-v1-player-id-verification") =>
            if ¬ optTruthy (getField body "playerId") then
              part000Json (msgBody false "Missing playerId") 400 req.headers
            else
              part000Json
                (.jobj [("ok", .jbool true),
                        ("message", .jstr "Player verified"),
                        ("productId", nnull (getField body "productId"))])
                200 req.headers
          | some (.jstr "event-v1-fulfill") =>
            part000Json
              (.jobj [("ok", .jbool true),
                      ("message", .jstr "Webhook verified successfully"),
                      ("namespace", nnull (getField body "namespace")),
                      ("productId", nnull (getField body "productId"))])
              200 req.headers
          | some (.jstr "event-v1-clawback") =>
            part000Json
              (.jobj [("ok", .jbool true),
                      ("message", .jstr "Webhook verified successfully"),
                      ("namespace", nnull (getField body "namespace")),
                      ("productId", nnull (getField body "productId"))])
              200 req.headers
          | _ =>
            part000Json (msgBody true "Webhook verified successfully") 200 req.headers
  else if req.path = "/" then
    .response
      { status := 200
        headers := [("content-type", "application/json; charset=utf-8")]
        body := some (.jsonBody (msgBody true "Hello from Daicy Cloudflare Worker!")) }
  else .response { status := 404, headers := [], body := some (.textBody "Not Found") }

/-! ## Variant `unnamed/part_001` (first document, challenge-echo variant) -/

/-- No-content preflight response shared by the `part_001` variants (a
null body on the 204 status is legal). -/
def part001NoContent : FetchOutcome :=
  .response
    { status := 204
      headers :=
        [("access-control-allow-origin", "*"),
         ("access-control-allow-headers", "*"),
         ("access-control-allow-methods", "GET,POST,OPTIONS"),
         ("access-control-max-age", "86400")]
      body := none }

/-- JSON response of the `part_001` variants: CORS headers but no
`X-Timestamp` header.  The body is always present, so a null-body
status would throw (no call site passes one). -/
def part001Json (data : JValue) (status : Nat) : FetchOutcome :=
  if nullBodyStatus status then .thrown nullBodyMsg
  else
    .response
      { status := status
        headers :=
          [("content-type", "application/json; charset=utf-8"),
           ("cache-control", "no-store"),
           ("access-control-allow-origin", "*"),
           ("access-control-allow-headers", "*"),
           ("access-control-allow-methods", "GET,POST,OPTIONS")]
        body := some (.jsonBody data) }

/-- The `fetch` of the first document of `unnamed/part_001`: a JSON
parse failure is swallowed (`catch {}` leaves `body = {}`) and `/verify`
always answers 200. -/
def part001aFetch (nowIso : String) (req : HRequest) : FetchOutcome :=
  if req.method = "OPTIONS" then part001NoContent
  else if req.path = "/" then
    part001Json (msgBody true "Hello from Daicy Cloudflare Worker!") 200
  else if req.path = "/__health" then
    .response
      { status := 200
        headers := [("access-control-allow-origin", "*")]
        body := some (.textBody "ok") }
  else if req.path = "/verify" then
    let body : JValue :=
      if req.method = "POST" then (jparse req.body).getD (.jobj []) else .jobj []
    let challenge : Option JValue :=
      (nnOpt (getField body "challenge")).orElse fun _ =>
      (nnOpt (getField body "verificationToken")).orElse fun _ =>
      (nnOpt (getField body "token")).orElse fun _ =>
      ((queryGet req.query "challenge").map JValue.jstr).orElse fun _ =>
      ((queryGet req.query "verificationToken").map JValue.jstr).orElse fun _ =>
      (queryGet req.query "token").map JValue.jstr
    part001Json
      (.jobj
        ([("ok", .jbool true), ("message", .jstr "Webhook verified successfully")] ++
         (match challenge with
          | some c => if jsTruthy c then [("challenge", c)] else []
          | none => []) ++
         (if optTruthy (getField body "namespace") then
            [("namespace", nnull (getField body "namespace"))] else []) ++
         (if optTruthy (getField body "productId") then
            [("productId", nnull (getField body "productId"))] else []) ++
         (if optTruthy (getField body "externalPlayerId") then
            [("externalPlayerId", nnull (getField body "externalPlayerId"))] else [])))
      200
  else if req.path = "/time" then
    part001Json (.jobj [("now", .jstr nowIso)]) 200
  else part001Json (.jobj [("ok", .jbool false), ("error", .jstr "Not Found")]) 404

/-! ## Variant `unnamed/part_002` (final version, with the 428 case) -/

/-- JSON response of `part_002`: always carries `X-Timestamp`, echoes
the request's `X-Signature` whenever the echo field is passed (all call
sites pass it), and the correlation id when truthy.  The body is always
present, so a null-body status would throw (no call site passes one). -/
def part002Json (nowIso : String) (data : JValue) (status : Nat)
    (extra : List (String × String)) (reqSig : Option String)
    (corrId : Option String) : FetchOutcome :=
  if nullBodyStatus status then .thrown nullBodyMsg
  else
    .response
      { status := status
        headers :=
          [("content-type", "application/json; charset=utf-8"),
           ("cache-control", "no-store"),
           ("access-control-allow-origin", "*"),
           ("access-control-allow-headers", "*"),
           ("access-control-allow-methods", "GET,POST,OPTIONS"),
           ("X-Timestamp", nowIso)] ++ extra ++
          (match corrId with
           | some c => if c ≠ "" then [("X-Epic-Correlation-ID", c)] else []
           | none => []) ++
          (match reqSig with
           | some s => [("X-Signature", s)]
           | none => [])
        body := some (.jsonBody data) }

/-- The 204 preflight response of `part_002`: echoes the signature and
correlation id unconditionally (empty string when absent); the null
body on the 204 status is legal. -/
def part002NoContent (nowIso reqSig corrId : String) : FetchOutcome :=
  .response
    { status := 204
      headers :=
        [("X-Timestamp", nowIso),
         ("X-Signature", reqSig),
         ("X-Epic-Correlation-ID", corrId),
         ("access-control-allow-origin", "*"),
         ("access-control-allow-headers", "*"),
         ("access-control-allow-methods", "GET,POST,OPTIONS")]
      body := none }

/-- Malformed-signature test of `part_002`: the trimmed header must be a
non-empty comma-separated list of `key=value` pieces (the pieces are not
trimmed). -/
def malformedSignature (sig : String) : Bool :=
  let s := jsTrim sig
  if s = "" then true
  else
    (jsSplit ',' s).any fun p =>
      match p.data.findIdx? (fun c => c = '=') with
      | none => true
      | some eq => eq = 0 ∨ eq = p.data.length - 1

/-- JavaScript `String(x ?? "")` over a possibly-absent property. -/
def strOfField (o : Option JValue) : String :=
  match nnOpt o with
  | none => ""
  | some v => jsString v

/-- The `fetch` of `unnamed/part_002` (all its `Response` constructions
are legal, so it never throws). -/
def part002Fetch (nowIso : String) (req : HRequest) : FetchOutcome :=
  let method := upperAscii req.method
  let corrId := nonEmptyOpt (headerGet req.headers "X-Epic-Correlation-ID")
  let reqSigHeaderPresent := headerHas req.headers "X-Signature"
  let reqSig := (headerGet req.headers "X-Signature").getD ""
  let reqTs := (headerGet req.headers "X-Timestamp").getD ""
  if method = "OPTIONS" then
    part002NoContent nowIso reqSig ((headerGet req.headers "X-Epic-Correlation-ID").getD "")
  else if method = "GET" ∧ req.path = "/" then
    part002Json nowIso (msgBody true "Hello from Daicy Cloudflare Worker!") 200 []
      (some reqSig) corrId
  else if method = "GET" ∧ req.path = "/verify" then
    part002Json nowIso (msgBody true "Verify endpoint is alive") 200 [] (some reqSig) corrId
  else if method = "POST" ∧ req.path = "/verify" then
    match parsedBody req.body with
    | none => part002Json nowIso (msgBody false "Invalid JSON") 400 [] (some reqSig) corrId
    | some body =>
      let type := strOfField (getField body "eventType")
      let eventId := jsTrim (strOfField (getField body "eventId"))
      if type = "" then
        part002Json nowIso (msgBody false "Missing eventType") 400 [] (some reqSig) corrId
      else if eventId = "" then
        part002Json nowIso (msgBody false "Missing eventId") 400 [] (some reqSig) corrId
      else if reqTs = "" then
        part002Json nowIso (msgBody false "Missing X-Timestamp") 400 [] (some reqSig) corrId
      else if ¬ reqSigHeaderPresent then
        let code := if type = "event-v1-player-id-verification" then 428 else 401
        part002Json nowIso (msgBody false "Invalid or missing X-Signature") code []
          (some reqSig) corrId
      else if jsTrim reqSig = "" ∨ malformedSignature reqSig then
        part002Json nowIso (msgBody false "Invalid or missing X-Signature") 401 []
          (some reqSig) corrId
      else
        part002Json nowIso
          (.jobj [("ok", .jbool true),
                  ("message", .jstr "Webhook verified successfully"),
                  ("namespace", nnull (getField body "namespace")),
                  ("productId", nnull (getField body "productId"))])
          200 [] (some reqSig) corrId
  else part002Json nowIso (msgBody false "Not Found") 404 [] (some reqSig) corrId

/-- The `message` field of a JSON response body; a thrown outcome has
no message. -/
def respMessage (r : FetchOutcome) : Option JValue :=
  match r with
  | .response resp =>
    match resp.body with
    | some (.jsonBody v) => getField v "message"
    | _ => none
  | .thrown _ => none

/-! ## Concrete inputs for claim C7 (OPTIONS preflight) -/

/-- Concrete OPTIONS request carrying no headers. -/
def c7Req : HRequest :=
  { method := "OPTIONS", path := "/anything", query := [], headers := [], body := "" }

/-- Concrete platform environment for counterexamples and witnesses. -/
def c7Env : JsEnv := ⟨0, "2025-01-01T00:00:00.000Z", fun _ => none⟩

/-! ## Concrete inputs for claim C5 (malformed JSON body) -/

/-- Concrete unparseable POST /verify request. -/
def c5Req : HRequest :=
  { method := "POST", path := "/verify", query := [], headers := [], body := "\x7b" }

/-! ## Concrete inputs for claim C9 (empty raw body) -/

/-- Concrete empty-body POST /verify request. -/
def c9Req : HRequest :=
  { method := "POST", path := "/verify", query := [], headers := [], body := "" }

/-! ## Concrete inputs for claim C3 (missing X-Timestamp) -/

/-- Concrete POST /verify request with no headers at all and a valid
JSON body. -/
def c3Req : HRequest :=
  { method := "POST", path := "/verify", query := [], headers := [], body := "\x7b\x7d" }

/-- Concrete POST /verify request with a signature but no timestamp. -/
def c3ReqB : HRequest :=
  { method := "POST", path := "/verify", query := [],
    headers := [("x-signature", "a=b")], body := "x" }

/-! ## Concrete inputs for claim C6 (missing eventType) -/

/-- Environment whose clock matches the concrete timestamp below. -/
def c6Env : JsEnv :=
  ⟨0, "2025-01-01T00:00:00.000Z",
   fun s => if s = "2025-01-01T00:00:00.000Z" then some 0 else none⟩

/-- POST /verify request with a fresh timestamp, no signature, and a
body lacking `eventType`. -/
def c6Req : HRequest :=
  { method := "POST", path := "/verify", query := [],
    headers := [("X-Timestamp", "2025-01-01T00:00:00.000Z")], body := "\x7b\x7d" }

/-- POST /verify request with both headers present and a body lacking
`eventType`. -/
def c6ReqB : HRequest :=
  { method := "POST", path := "/verify", query := [],
    headers := [("X-Timestamp", "2025-01-01T00:00:00.000Z"), ("X-Signature", "a=b")],
    body := "\x7b\x7d" }

/-! ## Concrete inputs for claim C1 (X-Signature handling in `part_002`) -/

/-- POST /verify request with a malformed signature and a body lacking
the required fields. -/
def c1Req : HRequest :=
  { method := "POST", path := "/verify", query := [],
    headers := [("X-Signature", "garbage")], body := "\x7b\x7d" }

/-- POST /verify request with a malformed signature but valid body and
timestamp. -/
def c1ReqB : HRequest :=
  { method := "POST", path := "/verify", query := [],
    headers := [("X-Timestamp", "t"), ("X-Signature", "bad")],
    body := "\x7b\"eventType\":\"x\",\"eventId\":\"e\"\x7d" }

/-- Player-id-verification POST /verify request with no signature
header at all. -/
def c1ReqC : HRequest :=
  { method := "POST", path := "/verify", query := [],
    headers := [("X-Timestamp", "t")],
    body := "\x7b\"eventType\":\"event-v1-player-id-verification\",\"eventId\":\"e\"\x7d" }

/-- Body of `c1ReqC` as a parsed value. -/
def c1BodyC : JValue :=
  .jobj [("eventType", .jstr "event-v1-player-id-verification"), ("eventId", .jstr "e")]

/-! ## Concrete inputs for claim C8 (response headers) -/

/-- OPTIONS request carrying a correlation id. -/
def c8Req : HRequest :=
  { method := "OPTIONS", path := "/verify", query := [],
    headers := [("X-Epic-Correlation-ID", "abc")], body := "" }

/-- GET / request carrying a correlation id. -/
def c8ReqB : HRequest :=
  { method := "GET", path := "/", query := [],
    headers := [("X-Epic-Correlation-ID", "abc")], body := "" }

/-! ## Required-field machinery shared by several claims -/

/-- Boolean form of the required-field predicate: a field is present
unless it is `undefined`, `null`, or a string with empty trim. -/
def fieldOk (p : JValue) (k : String) : Bool :=
  match getField p k with
  | none => false
  | some .jnull => false
  | some (.jstr s) => jsTrim s ≠ ""
  | some _ => true

/-! ## Concrete inputs for claim C4 (per-event-type required fields) -/

/-- POST /verify fulfill request to `part_000` missing `playerId`,
`offerId`, `namespace` and `quantity`. -/
def c4Req : HRequest :=
  { method := "POST", path := "/verify", query := [],
    headers := [("x-signature", "a=b"), ("x-timestamp", "t")],
    body := "\x7b\"eventType\":\"event-v1-fulfill\",\"eventId\":\"e\"\x7d" }

/-- POST /verify request to `part_000` with an unknown event type. -/
def c4ReqB : HRequest :=
  { method := "POST", path := "/verify", query := [],
    headers := [("x-signature", "a=b"), ("x-timestamp", "t")],
    body := "\x7b\"eventType\":\"zzz\",\"eventId\":\"e\"\x7d" }

/-- Timestamp accepted by `c6Env`. -/
def tsW : String := "2025-01-01T00:00:00.000Z"

/-- Raw body of a complete acknowledge request. -/
def c4Body : String := "\x7b\"eventType\":\"event-v1-acknowledge\",\"eventId\":\"e1\"\x7d"

/-- Acknowledge request with a fresh timestamp and a correctly computed
HMAC signature header. -/
def c4ReqW : HRequest :=
  { method := "POST", path := "/verify", query := [],
    headers := [("X-Timestamp", tsW), ("X-Signature", calcSignature c4Body "k")],
    body := c4Body }

/-! ## Concrete inputs for claim C2 (HMAC signature verification) -/

/-- POST /verify request with a fresh timestamp and a wrong signature. -/
def c2Req : HRequest :=
  { method := "POST", path := "/verify", query := [],
    headers := [("X-Timestamp", tsW), ("X-Signature", "x=y")], body := "\x7b\x7d" }

/-- POST /verify request with a fresh timestamp and the correctly
recomputed signature for the secret `k`. -/
def c2ReqW : HRequest :=
  { method := "POST", path := "/verify", query := [],
    headers := [("X-Timestamp", tsW), ("X-Signature", calcSignature "\x7b\x7d" "k")],
    body := "\x7b\x7d" }

/-! ## Concrete inputs for claim C10 (field-check semantics) -/

/-- Raw body of a fulfill event whose `quantity` is the number 0. -/
def c10Body : String :=
  "\x7b\"eventType\":\"event-v1-fulfill\",\"eventId\":\"e\",\"playerId\":\"p\",\"offerId\":\"o\",\"namespace\":\"n\",\"quantity\":0\x7d"

/-- Fields of `c10Body` after parsing. -/
def c10Fields : List (String × JValue) :=
  [("eventType", .jstr "event-v1-fulfill"), ("eventId", .jstr "e"),
   ("playerId", .jstr "p"), ("offerId", .jstr "o"),
   ("namespace", .jstr "n"), ("quantity", .jnum "0")]

/-- Fulfill request carrying `quantity: 0`, a fresh timestamp and a
correctly recomputed signature. -/
def c10Req : HRequest :=
  { method := "POST", path := "/verify", query := [],
    headers := [("X-Timestamp", tsW), ("X-Signature", calcSignature c10Body "k")],
    body := c10Body }

/-! ## Helper lemmas -/

@[simp] theorem mainJson_status (env : JsEnv) (d : JValue) (s : Nat)
    (e : List (String × String)) (c : Option String) :
    (mainJson env d s e c).status = if nullBodyStatus s = true then 0 else s := by
  simp only [mainJson]
  split <;> rfl

@[simp] theorem part000Json_status (d : JValue) (s : Nat) (hs : List (String × String)) :
    (part000Json d s hs).status = if nullBodyStatus s = true then 0 else s := by
  simp only [part000Json]
  split <;> rfl

@[simp] theorem part001Json_status (d : JValue) (s : Nat) :
    (part001Json d s).status = if nullBodyStatus s = true then 0 else s := by
  simp only [part001Json]
  split <;> rfl

@[simp] theorem part002Json_status (nowIso : String) (d : JValue) (s : Nat)
    (e : List (String × String)) (rs c : Option String) :
    (part002Json nowIso d s e rs c).status = if nullBodyStatus s = true then 0 else s := by
  simp only [part002Json]
  split <;> rfl

@[simp] theorem nullBodyStatus_200 : nullBodyStatus 200 = false := rfl

@[simp] theorem nullBodyStatus_204 : nullBodyStatus 204 = true := rfl

@[simp] theorem nullBodyStatus_400 : nullBodyStatus 400 = false := rfl

@[simp] theorem nullBodyStatus_401 : nullBodyStatus 401 = false := rfl

@[simp] theorem nullBodyStatus_404 : nullBodyStatus 404 = false := rfl

@[simp] theorem nullBodyStatus_405 : nullBodyStatus 405 = false := rfl

@[simp] theorem nullBodyStatus_428 : nullBodyStatus 428 = false := rfl

@[simp] theorem nullBodyStatus_500 : nullBodyStatus 500 = false := rfl

@[simp] theorem respMessage_mainJson (env : JsEnv) (ok : Bool) (m : String) (s : Nat)
    (e : List (String × String)) (c : Option String) :
    respMessage (mainJson env (msgBody ok m) s e c) =
      if nullBodyStatus s = true then none else some (.jstr m) := by
  simp only [mainJson]
  split <;> rfl

/-- The validator only produces the statuses 400, 401, 500 and 200,
none of which is a null-body status. -/
theorem verify_code_not_null_body (env : JsEnv) (req : HRequest) (bodyText : String)
    (wenv : WorkerEnv) :
    nullBodyStatus (verifyHeadersAndSignature env req bodyText wenv).code = false := by
  simp only [verifyHeadersAndSignature]
  repeat' split
  all_goals rfl

/-! ## Claim C7 — OPTIONS preflight -/

/-- C7 counterexample: the main handler produces no OPTIONS response
at all — `handleOptions` is `json(null, 204)`, which passes the body
`JSON.stringify(null)` to a 204 (null-body-status) `Response`, so the
constructor throws a `TypeError`; in particular there is no response
with status 204. -/
theorem c7_counterexample :
    mainFetch c7Env ⟨some "secret"⟩ c7Req = .thrown nullBodyMsg ∧
    (mainFetch c7Env ⟨some "secret"⟩ c7Req).status ≠ 204 := by
  refine ⟨rfl, ?_⟩
  have h : (mainFetch c7Env ⟨some "secret"⟩ c7Req).status = 0 := rfl
  rw [h]
  decide

/-- C7 (amended): for every OPTIONS request, to any path, the
`part_002` and `part_001` variants respond 204 with the CORS headers
and an empty body; the main handler (and `part_000`) instead throws a
`TypeError` — `json(null, 204)` puts a body on a null-body status — and
produces no response. -/
theorem c7_options_amended (env : JsEnv) (wenv : WorkerEnv) (nowIso : String)
    (req : HRequest) (hm : req.method = "OPTIONS") :
    mainFetch env wenv req = .thrown nullBodyMsg ∧
    part000Fetch req = .thrown nullBodyMsg ∧
    ((part002Fetch nowIso req).status = 204 ∧
     headerGet (part002Fetch nowIso req).headers "access-control-allow-origin" = some "*" ∧
     headerGet (part002Fetch nowIso req).headers "access-control-allow-headers" = some "*" ∧
     headerGet (part002Fetch nowIso req).headers "access-control-allow-methods" =
       some "GET,POST,OPTIONS" ∧
     (part002Fetch nowIso req).body = none) ∧
    ((part001aFetch nowIso req).status = 204 ∧
     headerGet (part001aFetch nowIso req).headers "access-control-allow-origin" = some "*" ∧
     headerGet (part001aFetch nowIso req).headers "access-control-allow-headers" = some "*" ∧
     headerGet (part001aFetch nowIso req).headers "access-control-allow-methods" =
       some "GET,POST,OPTIONS" ∧
     (part001aFetch nowIso req).body = none) := by
  have hmain : mainFetch env wenv req = mainHandleOptions env := by
    simp only [mainFetch, hm]
    rfl
  have h000 : part000Fetch req = part000Json .jnull 204 req.headers := by
    simp only [part000Fetch, hm]
    rfl
  have h002 : part002Fetch nowIso req =
      part002NoContent nowIso ((headerGet req.headers "X-Signature").getD "")
        ((headerGet req.headers "X-Epic-Correlation-ID").getD "") := by
    simp only [part002Fetch, hm]
    rfl
  have h001 : part001aFetch nowIso req = part001NoContent := by
    simp only [part001aFetch, hm]
    rfl
  rw [hmain, h000, h002, h001]
  exact ⟨rfl, rfl, ⟨rfl, rfl, rfl, rfl, rfl⟩, rfl, rfl, rfl, rfl, rfl⟩

/-- C7 witness: the amended theorem applied at the concrete OPTIONS
request. -/
theorem c7_witness :
    mainFetch c7Env ⟨some "secret"⟩ c7Req = .thrown nullBodyMsg ∧
    (part002Fetch "iso" c7Req).status = 204 ∧
    (part002Fetch "iso" c7Req).body = none ∧
    (part001aFetch "iso" c7Req).status = 204 ∧
    (part001aFetch "iso" c7Req).body = none := by
  refine ⟨(c7_options_amended c7Env ⟨some "secret"⟩ "iso" c7Req rfl).1,
          (c7_options_amended c7Env ⟨some "secret"⟩ "iso" c7Req rfl).2.2.1.1,
          (c7_options_amended c7Env ⟨some "secret"⟩ "iso" c7Req rfl).2.2.1.2.2.2.2,
          (c7_options_amended c7Env ⟨some "secret"⟩ "iso" c7Req rfl).2.2.2.1,
          (c7_options_amended c7Env ⟨some "secret"⟩ "iso" c7Req rfl).2.2.2.2.2.2.2⟩

/-! ## Claim C5 — malformed JSON body -/

/-- The signature-and-timestamp validator never produces the
`Invalid JSON` message. -/
theorem verify_msg_ne_invalid_json (env : JsEnv) (req : HRequest) (bodyText : String)
    (wenv : WorkerEnv) :
    (verifyHeadersAndSignature env req bodyText wenv).msg ≠ "Invalid JSON" := by
  simp only [verifyHeadersAndSignature]
  repeat' split
  all_goals simp

/-- C5 counterexample: the `part_001` variant swallows the JSON parse
failure (`catch \x7b\x7d`) and answers 200, not 400, to a non-empty
unparseable body. -/
theorem c5_counterexample :
    c5Req.body ≠ "" ∧ jparse c5Req.body = none ∧
    (part001aFetch "iso" c5Req).status = 200 ∧
    (part001aFetch "iso" c5Req).status ≠ 400 := by
  refine ⟨by decide, rfl, rfl, ?_⟩
  have h : (part001aFetch "iso" c5Req).status = 200 := rfl
  rw [h]
  decide

/-- C5 (amended): a POST /verify request whose non-empty raw body does
not parse as JSON receives 400 (`Invalid JSON`) from the main handler,
but 200 from the `part_001` challenge variant, which ignores the parse
failure. -/
theorem c5_invalid_json_amended :
    (∀ (env : JsEnv) (wenv : WorkerEnv) (req : HRequest),
       upperAscii req.method = "POST" → req.path = "/verify" →
       req.body ≠ "" → jparse req.body = none →
       (mainFetch env wenv req).status = 400 ∧
       respMessage (mainFetch env wenv req) = some (.jstr "Invalid JSON")) ∧
    (∀ (nowIso : String) (req : HRequest),
       req.method = "POST" → req.path = "/verify" →
       req.body ≠ "" → jparse req.body = none →
       (part001aFetch nowIso req).status = 200) := by
  constructor
  · intro env wenv req hm hp hb hj
    have hpb : parsedBody req.body = none := by rw [parsedBody, if_neg hb, hj]
    simp only [mainFetch, hm, hp, hpb]
    exact ⟨rfl, rfl⟩
  · intro nowIso req hm hp hb hj
    simp only [part001aFetch, hm, hp, hj]
    rfl

/-- C5 witness: the amended theorem applied at the concrete request. -/
theorem c5_witness :
    (mainFetch c7Env ⟨some "secret"⟩ c5Req).status = 400 ∧
    (part001aFetch "iso" c5Req).status = 200 :=
  ⟨(c5_invalid_json_amended.1 c7Env ⟨some "secret"⟩ c5Req rfl rfl (by decide) rfl).1,
   c5_invalid_json_amended.2 "iso" c5Req rfl rfl (by decide) rfl⟩

/-! ## Claim C9 — empty raw body -/

/-- C9: an empty raw body is replaced by the empty object without
parsing, so neither the main handler nor `part_002` ever answers
`Invalid JSON` to it; when the main handler's header validation passes
(and unconditionally in `part_002`, which checks fields first) the
failure reported is the missing-field error `Missing eventType`, 400. -/
theorem c9_empty_body :
    (∀ (env : JsEnv) (wenv : WorkerEnv) (req : HRequest),
       upperAscii req.method = "POST" → req.path = "/verify" → req.body = "" →
       respMessage (mainFetch env wenv req) ≠ some (.jstr "Invalid JSON") ∧
       ((verifyHeadersAndSignature env req req.body wenv).ok = true →
        (mainFetch env wenv req).status = 400 ∧
        respMessage (mainFetch env wenv req) = some (.jstr "Missing eventType"))) ∧
    (∀ (nowIso : String) (req : HRequest),
       upperAscii req.method = "POST" → req.path = "/verify" → req.body = "" →
       (part002Fetch nowIso req).status = 400 ∧
       respMessage (part002Fetch nowIso req) = some (.jstr "Missing eventType")) := by
  constructor
  · intro env wenv req hm hp hb
    have hpb : parsedBody req.body = some (.jobj []) := by rw [hb]; rfl
    have hfv : fieldValidation (.jobj []) = .error (400, "Missing eventType") := rfl
    have hmsg := verify_msg_ne_invalid_json env req req.body wenv
    cases hok : (verifyHeadersAndSignature env req req.body wenv).ok
    · constructor
      · simp [mainFetch, hm, hp, hpb, hok, respMessage_mainJson, hmsg]
      · intro h
        exact absurd h (by simp)
    · constructor
      · simp [mainFetch, hm, hp, hpb, hfv, hok, respMessage_mainJson]
      · intro h
        constructor <;> simp [mainFetch, hm, hp, hpb, hfv, hok, respMessage_mainJson]
  · intro nowIso req hm hp hb
    have hpb : parsedBody req.body = some (.jobj []) := by rw [hb]; rfl
    simp only [part002Fetch, hm, hp, hpb]
    exact ⟨rfl, rfl⟩

/-- C9 witness: applied at the concrete empty-body request. -/
theorem c9_witness :
    respMessage (mainFetch c7Env ⟨some "secret"⟩ c9Req) ≠ some (.jstr "Invalid JSON") ∧
    (part002Fetch "iso" c9Req).status = 400 :=
  ⟨(c9_empty_body.1 c7Env ⟨some "secret"⟩ c9Req rfl rfl rfl).1,
   (c9_empty_body.2 "iso" c9Req rfl rfl rfl).1⟩

/-! ## Claim C3 — missing X-Timestamp -/

/-- C3 counterexample: in the `part_000` variant a request missing the
`X-Timestamp` header but also missing `X-Signature` (with a valid JSON
body) is answered 401, not 400 — the signature check runs first. -/
theorem c3_counterexample :
    headerGet c3Req.headers "x-timestamp" = none ∧
    (part000Fetch c3Req).status = 401 ∧ (part000Fetch c3Req).status ≠ 400 := by
  refine ⟨rfl, rfl, ?_⟩
  have h : (part000Fetch c3Req).status = 401 := rfl
  rw [h]
  decide

/-- C3 (amended): a POST /verify request missing `X-Timestamp` receives
400 from the main handler regardless of body and other headers; the
`part_000` variant also answers 400, except when `X-Signature` is
simultaneously missing or empty and the body is valid JSON, in which
case its signature check fires first and the status is 401. -/
theorem c3_missing_timestamp_amended :
    (∀ (env : JsEnv) (wenv : WorkerEnv) (req : HRequest),
       upperAscii req.method = "POST" → req.path = "/verify" →
       headerGet req.headers "X-Timestamp" = none →
       (mainFetch env wenv req).status = 400) ∧
    (∀ (req : HRequest) (v : String),
       req.method = "POST" → req.path = "/verify" →
       headerGet req.headers "x-timestamp" = none →
       headerGet req.headers "x-signature" = some v → v ≠ "" →
       (part000Fetch req).status = 400) ∧
    (∀ (req : HRequest) (b : JValue),
       req.method = "POST" → req.path = "/verify" →
       headerGet req.headers "x-timestamp" = none →
       (headerGet req.headers "x-signature").getD "" = "" →
       jparse req.body = some b →
       (part000Fetch req).status = 401) := by
  refine ⟨?_, ?_, ?_⟩
  · intro env wenv req hm hp hts
    cases hpb : parsedBody req.body with
    | none => simp [mainFetch, hm, hp, hpb]
    | some p =>
      have hv : verifyHeadersAndSignature env req req.body wenv =
          ⟨false, 400, "Missing or invalid X-Timestamp"⟩ := by
        simp [verifyHeadersAndSignature, hts]
      simp [mainFetch, hm, hp, hpb, hv]
  · intro req v hm hp hts hsig hv
    cases hj : jparse req.body with
    | none => simp [part000Fetch, hm, hp, hj]
    | some b => simp [part000Fetch, hm, hp, hts, hsig, hj, hv]
  · intro req b hm hp hts hsig hj
    simp [part000Fetch, hm, hp, hsig, hj]

/-- C3 witness: the amended theorem applied at concrete requests. -/
theorem c3_witness :
    (mainFetch c7Env ⟨some "k"⟩ c3ReqB).status = 400 ∧
    (part000Fetch c3ReqB).status = 400 ∧
    (part000Fetch c3Req).status = 401 :=
  ⟨c3_missing_timestamp_amended.1 c7Env ⟨some "k"⟩ c3ReqB rfl rfl rfl,
   c3_missing_timestamp_amended.2.1 c3ReqB "a=b" rfl rfl rfl rfl (by decide),
   c3_missing_timestamp_amended.2.2 c3Req (.jobj []) rfl rfl rfl rfl rfl⟩

/-! ## Claim C6 — missing eventType -/

/-- C6 counterexample: in the main handler a body lacking `eventType`
is NOT answered 400 independently of headers — with a fresh timestamp
and a missing `X-Signature` the signature check fires first and the
status is 401. -/
theorem c6_counterexample :
    jparse c6Req.body = some (.jobj []) ∧
    getField (JValue.jobj []) "eventType" = none ∧
    (mainFetch c6Env ⟨some "k"⟩ c6Req).status = 401 ∧
    (mainFetch c6Env ⟨some "k"⟩ c6Req).status ≠ 400 := by
  refine ⟨rfl, rfl, rfl, ?_⟩
  have h : (mainFetch c6Env ⟨some "k"⟩ c6Req).status = 401 := rfl
  rw [h]
  decide

/-- C6 (amended): a JSON body lacking the `eventType` key is answered
400 by the `part_002` variant independently of the headers (its field
checks run first); the main handler answers 400 provided its
timestamp-and-signature validation passes, and otherwise returns that
validation's own status (400, 401 or 500). -/
theorem c6_missing_event_type_amended :
    (∀ (nowIso : String) (req : HRequest) (b : JValue),
       upperAscii req.method = "POST" → req.path = "/verify" →
       parsedBody req.body = some b → getField b "eventType" = none →
       (part002Fetch nowIso req).status = 400) ∧
    (∀ (env : JsEnv) (wenv : WorkerEnv) (req : HRequest) (b : JValue),
       upperAscii req.method = "POST" → req.path = "/verify" →
       parsedBody req.body = some b → getField b "eventType" = none →
       ((verifyHeadersAndSignature env req req.body wenv).ok = true →
        (mainFetch env wenv req).status = 400) ∧
       ((verifyHeadersAndSignature env req req.body wenv).ok = false →
        (mainFetch env wenv req).status =
          (verifyHeadersAndSignature env req req.body wenv).code)) := by
  constructor
  · intro nowIso req b hm hp hpb hf
    simp [part002Fetch, hm, hp, hpb, hf, strOfField, nnOpt]
  · intro env wenv req b hm hp hpb hf
    have hfv : fieldValidation b = .error (400, "Missing eventType") ∨
        fieldValidation b = .error (400, "Bad Request") := by
      cases b with
      | jnull => exact Or.inr rfl
      | jobj fields =>
        left
        simp [fieldValidation, requireField, hf, Bind.bind, Except.bind]
      | jbool x => exact Or.inl rfl
      | jnum x => exact Or.inl rfl
      | jstr x => exact Or.inl rfl
      | jarr x => exact Or.inl rfl
    constructor
    · intro hok
      rcases hfv with h | h <;> simp [mainFetch, hm, hp, hpb, hok, h]
    · intro hok
      simp [mainFetch, hm, hp, hpb, hok, verify_code_not_null_body]

/-- C6 witness: `part_002` answers 400 even when both headers are
present, and the main handler returns the header-validation status when
that validation fails. -/
theorem c6_witness :
    (part002Fetch "iso" c6ReqB).status = 400 ∧
    (mainFetch c6Env ⟨some "k"⟩ c6Req).status =
      (verifyHeadersAndSignature c6Env c6Req c6Req.body ⟨some "k"⟩).code :=
  ⟨c6_missing_event_type_amended.1 "iso" c6ReqB (.jobj []) rfl rfl rfl rfl,
   (c6_missing_event_type_amended.2 c6Env ⟨some "k"⟩ c6Req (.jobj []) rfl rfl rfl rfl).2 rfl⟩

/-! ## Claim C1 — empty/malformed/missing X-Signature in `part_002` -/

/-- C1 counterexample: a POST /verify request to `part_002` with a
present malformed `X-Signature` is answered 400 (Missing eventType),
not 401, when the body lacks the fields checked first. -/
theorem c1_counterexample :
    headerHas c1Req.headers "X-Signature" = true ∧
    malformedSignature "garbage" = true ∧
    (part002Fetch "iso" c1Req).status = 400 ∧
    (part002Fetch "iso" c1Req).status ≠ 401 := by
  refine ⟨rfl, rfl, rfl, ?_⟩
  have h : (part002Fetch "iso" c1Req).status = 400 := rfl
  rw [h]
  decide

/-- C1 (amended): in `part_002`, among POST /verify requests that pass
the earlier checks (parseable body, non-empty `eventType` and trimmed
`eventId`, present `X-Timestamp`): a present but empty or malformed
`X-Signature` yields 401, and a missing `X-Signature` yields 428 for
`event-v1-player-id-verification` and 401 for every other event type. -/
theorem c1_signature_status_amended (nowIso : String) (req : HRequest) (b : JValue)
    (hm : upperAscii req.method = "POST") (hp : req.path = "/verify")
    (hpb : parsedBody req.body = some b)
    (ht : strOfField (getField b "eventType") ≠ "")
    (he : jsTrim (strOfField (getField b "eventId")) ≠ "")
    (hts : (headerGet req.headers "X-Timestamp").getD "" ≠ "") :
    (headerHas req.headers "X-Signature" = true →
     (jsTrim ((headerGet req.headers "X-Signature").getD "") = "" ∨
      malformedSignature ((headerGet req.headers "X-Signature").getD "") = true) →
     (part002Fetch nowIso req).status = 401) ∧
    (headerHas req.headers "X-Signature" = false →
     (part002Fetch nowIso req).status =
       (if strOfField (getField b "eventType") = "event-v1-player-id-verification"
        then 428 else 401)) := by
  constructor
  · intro hhas hcond
    rcases hcond with hc | hc <;>
      simp [part002Fetch, hm, hp, hpb, ht, he, hts, hhas, hc]
  · intro hhas
    by_cases ht2 :
        strOfField (getField b "eventType") = "event-v1-player-id-verification" <;>
      simp [part002Fetch, hm, hp, hpb, ht, he, hts, hhas, ht2]

/-- C1 witness: 401 for a present malformed signature with valid body
and timestamp; 428 for a missing signature on player-id-verification. -/
theorem c1_witness :
    (part002Fetch "iso" c1ReqB).status = 401 ∧
    (part002Fetch "iso" c1ReqC).status = 428 := by
  constructor
  · exact (c1_signature_status_amended "iso" c1ReqB
      (.jobj [("eventType", .jstr "x"), ("eventId", .jstr "e")])
      rfl rfl rfl (by decide) (by decide) (by decide)).1 rfl (Or.inr (by decide))
  · exact ((c1_signature_status_amended "iso" c1ReqC c1BodyC
      rfl rfl rfl (by decide) (by decide) (by decide)).2 rfl).trans (by rfl)

/-! ## Claim C8 — X-Timestamp and correlation-id response headers -/

/-- C8 counterexample: `part_001`'s JSON helper sets no `X-Timestamp`
header and never echoes the correlation id, so its response to a
request carrying `X-Epic-Correlation-ID` has neither header. -/
theorem c8_counterexample :
    headerGet c8ReqB.headers "X-Epic-Correlation-ID" = some "abc" ∧
    headerGet (part001aFetch "iso" c8ReqB).headers "x-timestamp" = none ∧
    headerGet (part001aFetch "iso" c8ReqB).headers "X-Epic-Correlation-ID" = none :=
  ⟨rfl, rfl, rfl⟩

/-- A 204 call of the main handler's JSON helper never yields a
response (the constructor throws). -/
theorem mainJson204_ne_response (env : JsEnv) (d : JValue) (c : Option String)
    (r : HResponse) : mainJson env d 204 [] c ≠ .response r := by
  simp [mainJson, nullBodyStatus]

/-- A response actually produced by the main handler's JSON helper
carries `X-Timestamp`, and the echoed correlation id when one is
passed. -/
theorem mainJson_response_headers (env : JsEnv) (d : JValue) (s : Nat)
    (c : Option String) (r : HResponse)
    (h : mainJson env d s [] c = .response r) :
    headerGet r.headers "X-Timestamp" = some env.nowIso ∧
    ∀ cv, c = some cv → headerGet r.headers "X-Epic-Correlation-ID" = some cv := by
  simp only [mainJson] at h
  split at h
  · exact FetchOutcome.noConfusion h
  · injection h with h1
    rw [← h1]
    refine ⟨rfl, ?_⟩
    intro cv hcv
    subst hcv
    rfl

set_option maxHeartbeats 2000000 in
/-- C8 (amended): every response the main handler actually produces
carries `X-Timestamp` and echoes a non-empty request correlation id;
an OPTIONS request, however, produces no response at all — the handler
throws a `TypeError` (`json(null, 204)`).  The `part_002` variant
satisfies the full claim, `X-Timestamp` on every response and the
correlation id echoed on every response including the 204 preflight,
while the `part_001` variant's responses never carry `X-Timestamp`. -/
theorem c8_response_headers_amended :
    (∀ (env : JsEnv) (wenv : WorkerEnv) (req : HRequest) (r : HResponse),
       mainFetch env wenv req = .response r →
       headerGet r.headers "X-Timestamp" = some env.nowIso) ∧
    (∀ (env : JsEnv) (wenv : WorkerEnv) (req : HRequest) (r : HResponse) (c : String),
       mainFetch env wenv req = .response r →
       headerGet req.headers "X-Epic-Correlation-ID" = some c → c ≠ "" →
       headerGet r.headers "X-Epic-Correlation-ID" = some c) ∧
    (∀ (env : JsEnv) (wenv : WorkerEnv) (req : HRequest),
       upperAscii req.method = "OPTIONS" →
       mainFetch env wenv req = .thrown nullBodyMsg) ∧
    (∀ (nowIso : String) (req : HRequest),
       headerGet (part002Fetch nowIso req).headers "X-Timestamp" = some nowIso) ∧
    (∀ (nowIso : String) (req : HRequest) (c : String),
       headerGet req.headers "X-Epic-Correlation-ID" = some c → c ≠ "" →
       headerGet (part002Fetch nowIso req).headers "X-Epic-Correlation-ID" = some c) ∧
    (∀ (nowIso : String) (req : HRequest),
       headerGet (part001aFetch nowIso req).headers "x-timestamp" = none) := by
  refine ⟨?_, ?_, ?_, ?_, ?_, ?_⟩
  · intro env wenv req r h
    simp only [mainFetch, mainHandleOptions] at h
    repeat' split at h
    all_goals exact (mainJson_response_headers _ _ _ _ _ h).1
  · intro env wenv req r c h hcor hc
    have hco : nonEmptyOpt (headerGet req.headers "X-Epic-Correlation-ID") = some c := by
      rw [hcor]
      simp [nonEmptyOpt, hc]
    simp only [mainFetch, mainHandleOptions, hco] at h
    repeat' split at h
    all_goals first
      | exact absurd h (mainJson204_ne_response _ _ _ _)
      | exact (mainJson_response_headers _ _ _ _ _ h).2 c rfl
  · intro env wenv req hm
    simp only [mainFetch, hm]
    rfl
  · intro nowIso req
    have hj : ∀ (d : JValue) (s : Nat) (rs c : Option String),
        nullBodyStatus s = false →
        headerGet (part002Json nowIso d s [] rs c).headers "X-Timestamp" = some nowIso := by
      intro d s rs c hs
      simp only [part002Json, hs]
      rfl
    have hn : ∀ (a b : String),
        headerGet (part002NoContent nowIso a b).headers "X-Timestamp" = some nowIso :=
      fun a b => rfl
    simp only [part002Fetch]
    repeat' split
    all_goals first
      | exact hj _ _ _ _ rfl
      | exact hn _ _
  · intro nowIso req c hcor hc
    have hco : nonEmptyOpt (headerGet req.headers "X-Epic-Correlation-ID") = some c := by
      rw [hcor]
      simp [nonEmptyOpt, hc]
    have hj : ∀ (d : JValue) (s : Nat) (rs : Option String),
        nullBodyStatus s = false →
        headerGet (part002Json nowIso d s [] rs (some c)).headers "X-Epic-Correlation-ID" =
          some c := by
      intro d s rs hs
      simp [part002Json, hs, headerGet, List.find?, hc, lowerAscii]
    have hn : ∀ (a : String),
        headerGet (part002NoContent nowIso a c).headers "X-Epic-Correlation-ID" = some c :=
      fun a => rfl
    have hgd : (headerGet req.headers "X-Epic-Correlation-ID").getD "" = c := by
      rw [hcor]
      rfl
    simp only [part002Fetch, hco, hgd]
    repeat' split
    all_goals first
      | exact hj _ _ _ rfl
      | exact hn _
  · intro nowIso req
    have hj : ∀ (d : JValue) (s : Nat),
        nullBodyStatus s = false →
        headerGet (part001Json d s).headers "x-timestamp" = none := by
      intro d s hs
      simp only [part001Json, hs]
      rfl
    have hn : headerGet part001NoContent.headers "x-timestamp" = none := rfl
    simp only [part001aFetch]
    repeat' split
    all_goals first
      | exact hj _ _ rfl
      | exact hn

/-- C8 witness: the main handler's concrete GET / response carries
`X-Timestamp` and the echoed correlation id; the OPTIONS request with a
correlation id instead throws; `part_002` echoes on its 204 preflight. -/
theorem c8_witness :
    headerGet (mainFetch c7Env ⟨some "k"⟩ c8ReqB).headers "X-Timestamp" =
      some c7Env.nowIso ∧
    headerGet (mainFetch c7Env ⟨some "k"⟩ c8ReqB).headers "X-Epic-Correlation-ID" =
      some "abc" ∧
    mainFetch c7Env ⟨some "k"⟩ c8Req = .thrown nullBodyMsg ∧
    headerGet (part002Fetch "iso" c8Req).headers "X-Epic-Correlation-ID" = some "abc" := by
  refine ⟨?_, ?_, ?_, ?_⟩
  · rcases hc : mainFetch c7Env ⟨some "k"⟩ c8ReqB with r | m
    · exact c8_response_headers_amended.1 c7Env ⟨some "k"⟩ c8ReqB r hc
    · have h0 : (mainFetch c7Env ⟨some "k"⟩ c8ReqB).status = 200 := rfl
      rw [hc] at h0
      simp [FetchOutcome.status] at h0
  · rcases hc : mainFetch c7Env ⟨some "k"⟩ c8ReqB with r | m
    · exact c8_response_headers_amended.2.1 c7Env ⟨some "k"⟩ c8ReqB r "abc" hc rfl
        (by decide)
    · have h0 : (mainFetch c7Env ⟨some "k"⟩ c8ReqB).status = 200 := rfl
      rw [hc] at h0
      simp [FetchOutcome.status] at h0
  · exact c8_response_headers_amended.2.2.1 c7Env ⟨some "k"⟩ c8Req rfl
  · exact c8_response_headers_amended.2.2.2.2.1 "iso" c8Req "abc" rfl (by decide)

/-! ## Claim C4 — per-event-type required fields (and shared machinery) -/

/-- On object payloads `requireField` succeeds exactly on `fieldOk`
fields and otherwise throws 400 `Missing`. -/
theorem requireField_eq_fieldOk (fields : List (String × JValue)) (k : String) :
    requireField (.jobj fields) k =
      (if fieldOk (.jobj fields) k then .ok ()
       else .error (400, "Missing " ++ k)) := by
  simp only [requireField, fieldOk]
  split <;> rename_i h2 <;> revert h2 <;> split <;> simp

/-- Sequencing a required-field check: success continues, failure
short-circuits. -/
theorem bindRF (fields : List (String × JValue)) (k : String)
    (f : Unit → Except (Nat × String) JValue) :
    (requireField (.jobj fields) k >>= f) =
      (if fieldOk (.jobj fields) k then f ()
       else .error (400, "Missing " ++ k)) := by
  rw [requireField_eq_fieldOk]
  cases fieldOk (.jobj fields) k <;> simp [Bind.bind, Except.bind]

/-! ## Claims C2/C4/C10 shared signature lemmas -/

/-- The signature string is never empty (it starts with `S8137=`). -/
theorem calcSignature_ne_empty (b s : String) : calcSignature b s ≠ "" := by
  intro h
  have h2 := congrArg String.length h
  rw [calcSignature, String.length_append] at h2
  have h3 : ("S8137=").length = 6 := rfl
  rw [h3] at h2
  simp at h2

/-- Header validation succeeds when the timestamp is fresh, the secret
is configured and non-empty, and the signature header equals the
recomputed signature. -/
theorem verify_ok_of_calc (env : JsEnv) (req : HRequest) (wenv : WorkerEnv)
    (s ts : String)
    (hts : headerGet req.headers "X-Timestamp" = some ts) (h1 : ts ≠ "")
    (h2 : withinTimeSkew env ts = true)
    (hsig : headerGet req.headers "X-Signature" = some (calcSignature req.body s))
    (hsec : wenv.WEBHOOK_SECRET = some s) (hs : s ≠ "") :
    verifyHeadersAndSignature env req req.body wenv = ⟨true, 200, "ok"⟩ := by
  simp only [verifyHeadersAndSignature, hts, hsig, hsec]
  simp [h1, h2, hs, calcSignature_ne_empty req.body s]

/-- Field validation on an `event-v1-acknowledge` payload. -/
theorem fv_ack (fields : List (String × JValue))
    (het : getField (.jobj fields) "eventType" = some (.jstr "event-v1-acknowledge")) :
    fieldValidation (.jobj fields) =
      (if fieldOk (.jobj fields) "eventId" then .ok (successBody (.jobj fields))
       else .error (400, "Missing eventId")) := by
  have h1 : requireField (.jobj fields) "eventType" = .ok () := by
    simp only [requireField, het]
    rfl
  simp only [fieldValidation, h1, het, Bind.bind, Except.bind, requireField_eq_fieldOk]
  cases hfo : fieldOk (.jobj fields) "eventId" <;> simp [hfo, pure, Except.pure]

/-- Field validation on an `event-v1-player-id-verification` payload. -/
theorem fv_piv (fields : List (String × JValue))
    (het : getField (.jobj fields) "eventType" =
      some (.jstr "event-v1-player-id-verification")) :
    fieldValidation (.jobj fields) =
      (if fieldOk (.jobj fields) "eventId" then
        (if fieldOk (.jobj fields) "playerId" then .ok (successBody (.jobj fields))
         else .error (400, "Missing playerId"))
       else .error (400, "Missing eventId")) := by
  have h1 : requireField (.jobj fields) "eventType" = .ok () := by
    simp only [requireField, het]
    rfl
  simp only [fieldValidation, h1, het, Bind.bind, Except.bind, requireField_eq_fieldOk]
  cases hfo1 : fieldOk (.jobj fields) "eventId" <;>
    cases hfo2 : fieldOk (.jobj fields) "playerId" <;>
      simp [hfo1, hfo2, pure, Except.pure]

/-- Field validation on an `event-v1-fulfill` / `event-v1-clawback`
payload. -/
theorem fv_ful (fields : List (String × JValue)) (t : String)
    (ht : t = "event-v1-fulfill" ∨ t = "event-v1-clawback")
    (het : getField (.jobj fields) "eventType" = some (.jstr t)) :
    fieldValidation (.jobj fields) =
      (if fieldOk (.jobj fields) "eventId" then
        (if fieldOk (.jobj fields) "playerId" then
          (if fieldOk (.jobj fields) "offerId" then
            (if fieldOk (.jobj fields) "namespace" then
              (if fieldOk (.jobj fields) "quantity" then .ok (successBody (.jobj fields))
               else .error (400, "Missing quantity"))
             else .error (400, "Missing namespace"))
           else .error (400, "Missing offerId"))
         else .error (400, "Missing playerId"))
       else .error (400, "Missing eventId")) := by
  have h1 : requireField (.jobj fields) "eventType" = .ok () := by
    rcases ht with rfl | rfl <;> simp only [requireField, het] <;> rfl
  rcases ht with rfl | rfl <;>
    (simp only [fieldValidation, h1, het, Bind.bind, Except.bind, requireField_eq_fieldOk]
     cases fieldOk (.jobj fields) "eventId" <;>
       cases fieldOk (.jobj fields) "playerId" <;>
         cases fieldOk (.jobj fields) "offerId" <;>
           cases fieldOk (.jobj fields) "namespace" <;>
             cases fieldOk (.jobj fields) "quantity" <;>
               simp [pure, Except.pure])

/-- Field validation always throws a 400 error when the event type is
none of the four supported ones (including a missing or non-string
`eventType`). -/
theorem fv_unknown (b : JValue)
    (hun : ∀ t, getField b "eventType" = some (.jstr t) →
      t ≠ "event-v1-acknowledge" ∧ t ≠ "event-v1-player-id-verification" ∧
      t ≠ "event-v1-fulfill" ∧ t ≠ "event-v1-clawback") :
    ∃ m, fieldValidation b = .error (400, m) := by
  cases b with
  | jnull => exact ⟨"Bad Request", rfl⟩
  | jbool x => exact ⟨"Missing eventType", rfl⟩
  | jnum x => exact ⟨"Missing eventType", rfl⟩
  | jstr x => exact ⟨"Missing eventType", rfl⟩
  | jarr x => exact ⟨"Missing eventType", rfl⟩
  | jobj fields =>
    cases hgf : getField (.jobj fields) "eventType" with
    | none =>
      exact ⟨"Missing eventType",
        by simp [fieldValidation, requireField, hgf, Bind.bind, Except.bind]⟩
    | some v =>
      cases v with
      | jnull =>
        exact ⟨"Missing eventType",
          by simp [fieldValidation, requireField, hgf, Bind.bind, Except.bind]⟩
      | jstr s =>
        by_cases hs : jsTrim s = ""
        · exact ⟨"Missing eventType",
            by simp [fieldValidation, requireField, hgf, hs, Bind.bind, Except.bind]⟩
        · obtain ⟨h1, h2, h3, h4⟩ := hun s hgf
          exact ⟨"Unsupported eventType: " ++ s,
            by simp [fieldValidation, requireField, hgf, hs, Bind.bind, Except.bind,
                     h1, h2, h3, h4]⟩
      | jbool x =>
        exact ⟨"Unsupported eventType: " ++ jsString (.jbool x),
          by simp [fieldValidation, requireField, hgf, Bind.bind, Except.bind]⟩
      | jnum x =>
        exact ⟨"Unsupported eventType: " ++ jsString (.jnum x),
          by simp [fieldValidation, requireField, hgf, Bind.bind, Except.bind]⟩
      | jarr x =>
        exact ⟨"Unsupported eventType: " ++ jsString (.jarr x),
          by simp [fieldValidation, requireField, hgf, Bind.bind, Except.bind]⟩
      | jobj x =>
        exact ⟨"Unsupported eventType: " ++ jsString (.jobj x),
          by simp [fieldValidation, requireField, hgf, Bind.bind, Except.bind]⟩

/-- C4 counterexample: the `part_000` variant applies no per-event-type
required-field checks beyond `eventId` — a fulfill body missing
`playerId`, `offerId`, `namespace` and `quantity` passes with 200, and
an unknown event type also receives 200 rather than 400. -/
theorem c4_counterexample :
    (part000Fetch c4Req).status = 200 ∧ (part000Fetch c4Req).status ≠ 400 ∧
    (part000Fetch c4ReqB).status = 200 ∧ (part000Fetch c4ReqB).status ≠ 400 := by
  refine ⟨rfl, ?_, rfl, ?_⟩ <;>
    first
      | (have h : (part000Fetch c4Req).status = 200 := rfl
         rw [h]; decide)
      | (have h : (part000Fetch c4ReqB).status = 200 := rfl
         rw [h]; decide)

set_option maxHeartbeats 2000000 in
/-- C4 (amended): the per-event-type required-field checks of the claim
hold for the main handler (`src/index.ts`), for requests that pass its
header validation: `event-v1-acknowledge` requires `eventId`;
`event-v1-player-id-verification` requires `eventId` and `playerId`;
`event-v1-fulfill`/`event-v1-clawback` require `eventId`, `playerId`,
`offerId`, `namespace` and `quantity` (a missing field yields 400);
any other `eventType` yields 400.  The cited `part_000` and `part_002`
variants do not perform these checks (see the counterexample). -/
theorem c4_required_fields_amended :
    (∀ (env : JsEnv) (wenv : WorkerEnv) (req : HRequest)
       (fields : List (String × JValue)),
       upperAscii req.method = "POST" → req.path = "/verify" →
       parsedBody req.body = some (.jobj fields) →
       (verifyHeadersAndSignature env req req.body wenv).ok = true →
       getField (.jobj fields) "eventType" = some (.jstr "event-v1-acknowledge") →
       (mainFetch env wenv req).status =
         (if fieldOk (.jobj fields) "eventId" then 200 else 400)) ∧
    (∀ (env : JsEnv) (wenv : WorkerEnv) (req : HRequest)
       (fields : List (String × JValue)),
       upperAscii req.method = "POST" → req.path = "/verify" →
       parsedBody req.body = some (.jobj fields) →
       (verifyHeadersAndSignature env req req.body wenv).ok = true →
       getField (.jobj fields) "eventType" =
         some (.jstr "event-v1-player-id-verification") →
       (mainFetch env wenv req).status =
         (if fieldOk (.jobj fields) "eventId" && fieldOk (.jobj fields) "playerId"
          then 200 else 400)) ∧
    (∀ (env : JsEnv) (wenv : WorkerEnv) (req : HRequest)
       (fields : List (String × JValue)) (t : String),
       upperAscii req.method = "POST" → req.path = "/verify" →
       parsedBody req.body = some (.jobj fields) →
       (verifyHeadersAndSignature env req req.body wenv).ok = true →
       t = "event-v1-fulfill" ∨ t = "event-v1-clawback" →
       getField (.jobj fields) "eventType" = some (.jstr t) →
       (mainFetch env wenv req).status =
         (if fieldOk (.jobj fields) "eventId" && fieldOk (.jobj fields) "playerId" &&
             fieldOk (.jobj fields) "offerId" && fieldOk (.jobj fields) "namespace" &&
             fieldOk (.jobj fields) "quantity"
          then 200 else 400)) ∧
    (∀ (env : JsEnv) (wenv : WorkerEnv) (req : HRequest) (b : JValue),
       upperAscii req.method = "POST" → req.path = "/verify" →
       parsedBody req.body = some b →
       (verifyHeadersAndSignature env req req.body wenv).ok = true →
       (∀ t, getField b "eventType" = some (.jstr t) →
         t ≠ "event-v1-acknowledge" ∧ t ≠ "event-v1-player-id-verification" ∧
         t ≠ "event-v1-fulfill" ∧ t ≠ "event-v1-clawback") →
       (mainFetch env wenv req).status = 400) := by
  refine ⟨?_, ?_, ?_, ?_⟩
  · intro env wenv req fields hm hp hpb hok het
    have hfv := fv_ack fields het
    cases hfo : fieldOk (.jobj fields) "eventId" <;>
      simp [mainFetch, hm, hp, hpb, hok, hfv, hfo]
  · intro env wenv req fields hm hp hpb hok het
    have hfv := fv_piv fields het
    cases hfo1 : fieldOk (.jobj fields) "eventId" <;>
      cases hfo2 : fieldOk (.jobj fields) "playerId" <;>
        simp [mainFetch, hm, hp, hpb, hok, hfv, hfo1, hfo2]
  · intro env wenv req fields t hm hp hpb hok ht het
    have hfv := fv_ful fields t ht het
    cases hfo1 : fieldOk (.jobj fields) "eventId" <;>
      cases hfo2 : fieldOk (.jobj fields) "playerId" <;>
        cases hfo3 : fieldOk (.jobj fields) "offerId" <;>
          cases hfo4 : fieldOk (.jobj fields) "namespace" <;>
            cases hfo5 : fieldOk (.jobj fields) "quantity" <;>
              simp [mainFetch, hm, hp, hpb, hok, hfv, hfo1, hfo2, hfo3, hfo4, hfo5]
  · intro env wenv req b hm hp hpb hok hun
    obtain ⟨m, hfv⟩ := fv_unknown b hun
    simp [mainFetch, hm, hp, hpb, hok, hfv]

/-- C4 witness: a fully valid acknowledge request (fresh timestamp,
correct signature, `eventId` present) is answered 200 by the main
handler. -/
theorem c4_witness : (mainFetch c6Env ⟨some "k"⟩ c4ReqW).status = 200 := by
  have hok : (verifyHeadersAndSignature c6Env c4ReqW c4ReqW.body ⟨some "k"⟩).ok = true := by
    rw [verify_ok_of_calc c6Env c4ReqW ⟨some "k"⟩ "k" tsW rfl (by decide) rfl rfl rfl
      (by decide)]
  have h := c4_required_fields_amended.1 c6Env ⟨some "k"⟩ c4ReqW
    [("eventType", .jstr "event-v1-acknowledge"), ("eventId", .jstr "e1")]
    rfl rfl rfl hok rfl
  exact h.trans (by rfl)

theorem requireField_error_code (p : JValue) (k : String) (err : Nat × String)
    (h : requireField p k = .error err) : err.1 = 400 := by
  simp only [requireField] at h
  repeat' split at h
  all_goals first
    | exact Except.noConfusion h
    | (cases h; rfl)

theorem fieldValidation_error_code (p : JValue) (e : Nat × String)
    (h : fieldValidation p = .error e) : e.1 = 400 := by
  rcases hrf : requireField p "eventType" with err | u
  · have h4 := requireField_error_code p "eventType" err hrf
    simp only [fieldValidation, Bind.bind, Except.bind, hrf] at h
    cases h
    exact h4
  · simp only [fieldValidation, Bind.bind, Except.bind, hrf] at h
    repeat' split at h
    all_goals first
      | exact Except.noConfusion h
      | (cases h; rfl)
      | (rename_i err2 heq
         cases h
         exact requireField_error_code _ _ _ heq)

theorem hexDigit_mem (n : Nat) : hexDigit n ∈ hexDigits := by
  unfold hexDigit
  rw [List.getD_eq_getElem?_getD]
  cases h : hexDigits[n]? with
  | none => decide
  | some c =>
    simp only [h, Option.getD_some]
    exact List.getElem?_mem h

theorem string_join_data (l : List String) (acc : String) :
    (l.foldl (fun r s => r ++ s) acc).data = acc.data ++ (l.map String.data).flatten := by
  induction l generalizing acc with
  | nil => simp
  | cons a t ih => simp [ih, String.data_append]

theorem bytesToHex_mem (bs : List Nat) :
    ∀ c ∈ (bytesToHex bs).data, c ∈ hexDigits := by
  intro c hc
  unfold bytesToHex String.join at hc
  rw [string_join_data] at hc
  simp only [List.map_map, List.mem_append, List.mem_flatten, List.mem_map] at hc
  rcases hc with h | ⟨cs, ⟨b, hb, hcs⟩, hcmem⟩
  · cases h
  · rw [← hcs] at hcmem
    simp [hexByte] at hcmem
    rcases hcmem with rfl | rfl
    · exact hexDigit_mem _
    · exact hexDigit_mem _

/-- The computed signature always starts with the letter `S`. -/
theorem calcSignature_head (b s : String) : (calcSignature b s).data.head? = some 'S' := by
  unfold calcSignature
  rw [String.data_append]
  rfl

set_option maxHeartbeats 1000000 in
/-! ## Claim C2 — HMAC signature verification in the main handler -/

/-- C2: for POST /verify requests that reach signature verification
(parseable body, fresh non-empty timestamp, non-empty signature
header): the expected signature is the string `S8137=` followed by the
lowercase hex encoding of HMAC-SHA256 of the raw body under the secret;
with a configured non-empty secret, a header different from it is
answered 401 and an equal header proceeds (200 or a 400 field error);
a missing (or empty) secret is answered 500. -/
theorem c2_signature_verification (env : JsEnv) (wenv : WorkerEnv) (req : HRequest)
    (p : JValue) (ts : String)
    (hm : upperAscii req.method = "POST") (hp : req.path = "/verify")
    (hpb : parsedBody req.body = some p)
    (hts : headerGet req.headers "X-Timestamp" = some ts) (hts1 : ts ≠ "")
    (hts2 : withinTimeSkew env ts = true)
    (hsg : (headerGet req.headers "X-Signature").getD "" ≠ "") :
    (∀ s, calcSignature req.body s =
       "S8137=" ++ bytesToHex (hmacSha256 (utf8Bytes s) (utf8Bytes req.body)) ∧
       ∀ c ∈ (bytesToHex (hmacSha256 (utf8Bytes s) (utf8Bytes req.body))).data,
         c ∈ hexDigits) ∧
    (wenv.WEBHOOK_SECRET.getD "" = "" → (mainFetch env wenv req).status = 500) ∧
    (∀ s, wenv.WEBHOOK_SECRET = some s → s ≠ "" →
      (headerGet req.headers "X-Signature").getD "" ≠ calcSignature req.body s →
      (mainFetch env wenv req).status = 401 ∧
      respMessage (mainFetch env wenv req) =
        some (.jstr "Invalid or missing X-Signature")) ∧
    (∀ s, wenv.WEBHOOK_SECRET = some s → s ≠ "" →
      (headerGet req.headers "X-Signature").getD "" = calcSignature req.body s →
      (mainFetch env wenv req).status = 200 ∨ (mainFetch env wenv req).status = 400) := by
  refine ⟨fun s => ⟨rfl, bytesToHex_mem _⟩, ?_, ?_, ?_⟩
  · intro hsec
    have hv : verifyHeadersAndSignature env req req.body wenv =
        ⟨false, 500, "Server misconfigured: missing WEBHOOK_SECRET"⟩ := by
      simp only [verifyHeadersAndSignature, hts]
      simp [hts1, hts2, hsg, hsec]
    simp [mainFetch, hm, hp, hpb, hv]
  · intro s hsec hs hne
    have hv : verifyHeadersAndSignature env req req.body wenv =
        ⟨false, 401, "Invalid or missing X-Signature"⟩ := by
      simp only [verifyHeadersAndSignature, hts, hsec]
      simp [hts1, hts2, hsg, hs, hne]
    constructor <;> simp [mainFetch, hm, hp, hpb, hv, respMessage_mainJson]
  · intro s hsec hs heq
    have hv : verifyHeadersAndSignature env req req.body wenv = ⟨true, 200, "ok"⟩ := by
      simp only [verifyHeadersAndSignature, hts, hsec]
      simp [hts1, hts2, hsg, hs, heq, calcSignature_ne_empty req.body s]
    rcases hfc : fieldValidation p with e | d
    · right
      have h4 := fieldValidation_error_code p e hfc
      simp [mainFetch, hm, hp, hpb, hv, hfc, h4]
    · left
      simp [mainFetch, hm, hp, hpb, hv, hfc]

/-- C2 witness: with a missing secret the concrete request is answered
500; with secret `k` and the wrong signature `x=y` it is answered 401;
with the recomputed signature it proceeds past signature verification. -/
theorem c2_witness :
    (mainFetch c6Env ⟨none⟩ c2Req).status = 500 ∧
    (mainFetch c6Env ⟨some "k"⟩ c2Req).status = 401 ∧
    ((mainFetch c6Env ⟨some "k"⟩ c2ReqW).status = 200 ∨
     (mainFetch c6Env ⟨some "k"⟩ c2ReqW).status = 400) := by
  have hne : ("x=y" : String) ≠ calcSignature c2Req.body "k" := by
    intro h
    have h2 := calcSignature_head c2Req.body "k"
    rw [← h] at h2
    exact absurd h2 (by decide)
  refine ⟨?_, ?_, ?_⟩
  · exact (c2_signature_verification c6Env ⟨none⟩ c2Req (.jobj []) tsW
      rfl rfl rfl rfl (by decide) rfl (by decide)).2.1 rfl
  · exact ((c2_signature_verification c6Env ⟨some "k"⟩ c2Req (.jobj []) tsW
      rfl rfl rfl rfl (by decide) rfl (by decide)).2.2.1 "k" rfl (by decide) hne).1
  · exact (c2_signature_verification c6Env ⟨some "k"⟩ c2ReqW (.jobj []) tsW
      rfl rfl rfl rfl (by decide) rfl (calcSignature_ne_empty _ _)).2.2.2 "k" rfl
      (by decide) rfl

set_option maxHeartbeats 1000000 in
/-! ## Claim C10 — required-field semantics and zero/false quantity -/

/-- C10: `requireField` rejects exactly `undefined` (absent), `null`,
and strings whose trim is empty; hence a numeric (e.g. `0`) or boolean
(e.g. `false`) `quantity` passes the check, and a fulfill/clawback
request passing header validation with the other four fields present
and such a `quantity` is answered 200 by the main handler. -/
theorem c10_field_check_semantics :
    (∀ (fields : List (String × JValue)) (k : String),
       requireField (.jobj fields) k = .ok () ↔
       ¬(getField (.jobj fields) k = none ∨ getField (.jobj fields) k = some .jnull ∨
         ∃ s, getField (.jobj fields) k = some (.jstr s) ∧ jsTrim s = "")) ∧
    (∀ (fields : List (String × JValue)) (lex : String),
       getField (.jobj fields) "quantity" = some (.jnum lex) →
       requireField (.jobj fields) "quantity" = .ok ()) ∧
    (∀ (fields : List (String × JValue)) (bq : Bool),
       getField (.jobj fields) "quantity" = some (.jbool bq) →
       requireField (.jobj fields) "quantity" = .ok ()) ∧
    (∀ (env : JsEnv) (wenv : WorkerEnv) (req : HRequest)
       (fields : List (String × JValue)) (t : String),
       upperAscii req.method = "POST" → req.path = "/verify" →
       parsedBody req.body = some (.jobj fields) →
       (verifyHeadersAndSignature env req req.body wenv).ok = true →
       t = "event-v1-fulfill" ∨ t = "event-v1-clawback" →
       getField (.jobj fields) "eventType" = some (.jstr t) →
       fieldOk (.jobj fields) "eventId" = true →
       fieldOk (.jobj fields) "playerId" = true →
       fieldOk (.jobj fields) "offerId" = true →
       fieldOk (.jobj fields) "namespace" = true →
       (getField (.jobj fields) "quantity" = some (.jnum "0") ∨
        getField (.jobj fields) "quantity" = some (.jbool false)) →
       (mainFetch env wenv req).status = 200) := by
  refine ⟨?_, ?_, ?_, ?_⟩
  · intro fields k
    cases hgf : getField (.jobj fields) k with
    | none => simp [requireField_eq_fieldOk, fieldOk, hgf]
    | some v =>
      cases v with
      | jstr s =>
        by_cases hs : jsTrim s = "" <;>
          simp [requireField_eq_fieldOk, fieldOk, hgf, hs]
      | jnull => simp [requireField_eq_fieldOk, fieldOk, hgf]
      | jbool x => simp [requireField_eq_fieldOk, fieldOk, hgf]
      | jnum x => simp [requireField_eq_fieldOk, fieldOk, hgf]
      | jarr x => simp [requireField_eq_fieldOk, fieldOk, hgf]
      | jobj x => simp [requireField_eq_fieldOk, fieldOk, hgf]
  · intro fields lex hq
    simp [requireField, hq]
  · intro fields bq hq
    simp [requireField, hq]
  · intro env wenv req fields t hm hp hpb hok ht het hf1 hf2 hf3 hf4 hq
    have hf5 : fieldOk (.jobj fields) "quantity" = true := by
      rcases hq with hq | hq <;> simp [fieldOk, hq]
    have hfv := fv_ful fields t ht het
    simp [mainFetch, hm, hp, hpb, hok, hfv, hf1, hf2, hf3, hf4, hf5]

/-- C10 witness: the quantity-0 fulfill request is verified end to end
with status 200, and the zero quantity passes the field check. -/
theorem c10_witness :
    requireField (.jobj c10Fields) "quantity" = .ok () ∧
    requireField (.jobj [("quantity", .jbool false)]) "quantity" = .ok () ∧
    (mainFetch c6Env ⟨some "k"⟩ c10Req).status = 200 := by
  refine ⟨c10_field_check_semantics.2.1 c10Fields "0" rfl,
          c10_field_check_semantics.2.2.1 [("quantity", .jbool false)] false rfl, ?_⟩
  have hok : (verifyHeadersAndSignature c6Env c10Req c10Req.body ⟨some "k"⟩).ok = true := by
    rw [verify_ok_of_calc c6Env c10Req ⟨some "k"⟩ "k" tsW rfl (by decide) rfl rfl rfl
      (by decide)]
  exact c10_field_check_semantics.2.2.2 c6Env ⟨some "k"⟩ c10Req c10Fields
    "event-v1-fulfill" rfl rfl rfl hok (Or.inl rfl) rfl (by decide) (by decide)
    (by decide) (by decide) (Or.inl rfl)
